import Mathlib

/-!
ESP32_Display_Panel: I2C backlight controller and DSI panel decorators.

A shallow embedding of

* `src/drivers/backlight/esp_panel_backlight_i2c_commands.c` (the C controller with its two
  globals `g_i2c_config` and `g_i2c_initialized`),
* `src/drivers/backlight/esp_panel_backlight_i2c.cpp` (the class `BacklightI2C` wrapping it),
* `src/drivers/lcd/port/esp_lcd_nodsiconf.c` (the "no-config" panel decorator),
* `src/drivers/lcd/port/esp_lcd_simple.c` (the "simple" panel decorator),

followed by theorems about them.

Conventions.  Globals and object fields become fields of explicit state records that every
function takes and returns.  The external services (I2C master write, task delay) are not part
of the repository: a call of one appends an event to `World.trace`, and the result of an I2C
write is supplied by a `Bus` oracle that may depend on everything that happened before.
`vTaskDelay(pdMS_TO_TICKS(ms))` is recorded as a delay request of `ms` milliseconds; the tick
conversion belongs to the RTOS configuration.  Logging macros have no effect on state and are
left out.  C `int` values are `Int`, `uint8_t`/`uint32_t` values are `Nat`, and a narrowing
cast is an explicit `%`.  The panel decorators have a trace of their own, `List PanelEvent`,
and their external services (allocation, GPIO configuration, creation of the MIPI DPI panel,
calls through saved function pointers) are the oracles of a `PanelEnv`.
-/

namespace EspPanel

/-! ## Error codes (ESP-IDF `esp_err.h`) -/

/-- The ESP-IDF result type `esp_err_t` (a C `int`). -/
abbrev esp_err_t := Int

def ESP_OK : esp_err_t := 0
def ESP_FAIL : esp_err_t := -1
def ESP_ERR_NO_MEM : esp_err_t := 0x101
def ESP_ERR_INVALID_ARG : esp_err_t := 0x102
def ESP_ERR_INVALID_STATE : esp_err_t := 0x103
def ESP_ERR_NOT_SUPPORTED : esp_err_t := 0x106
def ESP_ERR_TIMEOUT : esp_err_t := 0x107

/-! ## Data model (`esp_panel_backlight_i2c_commands.h`) -/

/-- The record `esp_panel_backlight_i2c_cmd_t`: command byte, data byte, delay after the
write in milliseconds. -/
structure esp_panel_backlight_i2c_cmd_t where
  command : Nat
  data : Nat
  delay_ms : Nat
  deriving DecidableEq, Repr

/-- The record `esp_panel_backlight_i2c_config_t`.  The pointer `init_sequence` together with
`init_sequence_len` is one optional list: `none` is the null pointer, and the length of the
list is `init_sequence_len`. -/
structure esp_panel_backlight_i2c_config_t where
  i2c_port : Int
  i2c_addr : Nat
  sda_pin : Int
  scl_pin : Int
  i2c_freq : Nat
  brightness_cmd : Nat
  power_cmd : Nat
  power_on_value : Nat
  power_off_value : Nat
  max_brightness : Int
  init_sequence : Option (List esp_panel_backlight_i2c_cmd_t)
  deriving DecidableEq, Repr

/-- The field `init_sequence_len` of a configuration. -/
def esp_panel_backlight_i2c_config_t.init_sequence_len
    (c : esp_panel_backlight_i2c_config_t) : Int :=
  match c.init_sequence with
  | none => 0
  | some l => (l.length : Int)

/-- The initial value `{0}` of the global `g_i2c_config`. -/
def zero_config : esp_panel_backlight_i2c_config_t :=
  { i2c_port := 0, i2c_addr := 0, sda_pin := 0, scl_pin := 0, i2c_freq := 0,
    brightness_cmd := 0, power_cmd := 0, power_on_value := 0, power_off_value := 0,
    max_brightness := 0, init_sequence := none }

/-! ## External services -/

/-- One call of `i2c_master_write_to_device(port, addr, data, len, pdMS_TO_TICKS(timeout_ms))`;
`len` is the length of `data`. -/
structure I2CWrite where
  port : Int
  addr : Nat
  data : List Nat
  timeout_ms : Nat
  deriving DecidableEq, Repr

/-- What the controller does to the outside world: a bus write with the result it got, or a
suspension of the calling task. -/
inductive Event where
  | write (req : I2CWrite) (ret : esp_err_t)
  | delay (ms : Nat)
  deriving DecidableEq, Repr

/-- The transport: the result of a write, given everything that happened before it. -/
abbrev Bus := List Event → I2CWrite → esp_err_t

/-- The globals of `esp_panel_backlight_i2c_commands.c` and the events so far, oldest first. -/
structure World where
  g_i2c_config : esp_panel_backlight_i2c_config_t
  g_i2c_initialized : Bool
  trace : List Event
  deriving DecidableEq, Repr

/-- The state at program start: `g_i2c_config = {0}`, `g_i2c_initialized = false`. -/
def World.initial : World :=
  { g_i2c_config := zero_config, g_i2c_initialized := false, trace := [] }

/-- The call `i2c_master_write_to_device`. -/
def i2c_master_write_to_device (bus : Bus) (req : I2CWrite) (w : World) : esp_err_t × World :=
  let ret := bus w.trace req
  (ret, { w with trace := w.trace ++ [Event.write req ret] })

/-- The call `vTaskDelay(pdMS_TO_TICKS(ms))`. -/
def vTaskDelay (ms : Nat) (w : World) : World :=
  { w with trace := w.trace ++ [Event.delay ms] }

/-! ## `esp_panel_backlight_i2c_commands.c` -/

/-- The probe of `esp_panel_backlight_i2c_init`: one zero byte to address `0x00`, 10 ms. -/
def probe_write (config : esp_panel_backlight_i2c_config_t) : I2CWrite :=
  { port := config.i2c_port, addr := 0x00, data := [0], timeout_ms := 10 }

/-- The write of one init command: `{cmd->command, cmd->data}` to the device, 100 ms. -/
def cmd_write (config : esp_panel_backlight_i2c_config_t)
    (cmd : esp_panel_backlight_i2c_cmd_t) : I2CWrite :=
  { port := config.i2c_port, addr := config.i2c_addr, data := [cmd.command, cmd.data],
    timeout_ms := 100 }

/-- The `for` loop of `esp_panel_backlight_i2c_init` over the commands still to be sent. -/
def init_loop (bus : Bus) (config : esp_panel_backlight_i2c_config_t) :
    List esp_panel_backlight_i2c_cmd_t → World → esp_err_t × World
  | [], w => (ESP_OK, w)
  | cmd :: rest, w =>
    let r := i2c_master_write_to_device bus (cmd_write config cmd) w
    if r.1 ≠ ESP_OK then
      (r.1, r.2)
    else
      let w2 := if cmd.delay_ms > 0 then vTaskDelay cmd.delay_ms r.2 else r.2
      init_loop bus config rest w2

/-- The function `esp_panel_backlight_i2c_init`; `none` is a null `config`. -/
def esp_panel_backlight_i2c_init (bus : Bus) (config : Option esp_panel_backlight_i2c_config_t)
    (w : World) : esp_err_t × World :=
  match config with
  | none => (ESP_ERR_INVALID_ARG, w)
  | some config =>
    match config.init_sequence with
    | none => (ESP_ERR_INVALID_ARG, w)
    | some seq =>
      if ¬ (config.init_sequence_len > 0) then (ESP_ERR_INVALID_ARG, w)
      else
        let r := i2c_master_write_to_device bus (probe_write config) w
        if r.1 = ESP_ERR_INVALID_STATE then
          (r.1, r.2)
        else
          let w1 : World := { r.2 with g_i2c_config := config, g_i2c_initialized := true }
          init_loop bus config seq w1

/-- The function `esp_panel_backlight_i2c_deinit`. -/
def esp_panel_backlight_i2c_deinit (w : World) : esp_err_t × World :=
  if ¬ w.g_i2c_initialized then (ESP_OK, w)
  else (ESP_OK, { w with g_i2c_initialized := false })

/-- A mathematical integer as the 32-bit two's-complement `int` with the same low 32 bits. -/
def wrap_int32 (x : Int) : Int := (x + 2 ^ 31) % 2 ^ 32 - 2 ^ 31

/-- The expression `(percent * g_i2c_config.max_brightness) / 100` in C `int` arithmetic: the
product of two 32-bit `int`s is a 32-bit `int`, and the quotient is truncated toward zero.
(Signed overflow is undefined in C; the compiled code keeps the low 32 bits, and so does the
model.  For `0 ≤ percent ≤ 100` the product fits whenever `|max_brightness| ≤ 21474836`.) -/
def brightness_value (percent max_brightness : Int) : Int :=
  Int.tdiv (wrap_int32 (percent * max_brightness)) 100

/-- The cast `(uint8_t)v` of a C `int`. -/
def to_uint8 (v : Int) : Nat := (v % 256).toNat

/-- The write of `esp_panel_backlight_i2c_set_brightness`:
`{g_i2c_config.brightness_cmd, (uint8_t)brightness_value}` to the device, 100 ms. -/
def brightness_write (config : esp_panel_backlight_i2c_config_t) (percent : Int) : I2CWrite :=
  { port := config.i2c_port, addr := config.i2c_addr,
    data := [config.brightness_cmd, to_uint8 (brightness_value percent config.max_brightness)],
    timeout_ms := 100 }

/-- The function `esp_panel_backlight_i2c_set_brightness`. -/
def esp_panel_backlight_i2c_set_brightness (bus : Bus) (percent : Int) (w : World) :
    esp_err_t × World :=
  if ¬ w.g_i2c_initialized then (ESP_ERR_INVALID_STATE, w)
  else if ¬ (percent ≥ 0 ∧ percent ≤ 100) then (ESP_ERR_INVALID_ARG, w)
  else
    let r := i2c_master_write_to_device bus (brightness_write w.g_i2c_config percent) w
    if r.1 ≠ ESP_OK then (r.1, r.2)
    else (ESP_OK, r.2)

/-- The write of `esp_panel_backlight_i2c_set_power`: `{g_i2c_config.power_cmd, data}` with
`data = on ? power_on_value : power_off_value`, 100 ms. -/
def power_write (config : esp_panel_backlight_i2c_config_t) (on_ : Bool) : I2CWrite :=
  { port := config.i2c_port, addr := config.i2c_addr,
    data := [config.power_cmd, if on_ then config.power_on_value else config.power_off_value],
    timeout_ms := 100 }

/-- The function `esp_panel_backlight_i2c_set_power`. -/
def esp_panel_backlight_i2c_set_power (bus : Bus) (on_ : Bool) (w : World) : esp_err_t × World :=
  if ¬ w.g_i2c_initialized then (ESP_ERR_INVALID_STATE, w)
  else
    let r := i2c_master_write_to_device bus (power_write w.g_i2c_config on_) w
    if r.1 ≠ ESP_OK then (r.1, r.2)
    else (ESP_OK, r.2)

/-! ## `esp_panel_backlight_i2c.cpp`: the class `BacklightI2C` -/

/-- The values of `Backlight::State` that `BacklightI2C` passes to `setState`. -/
inductive State where
  | DEINIT
  | BEGIN
  deriving DecidableEq, Repr

/-- A call of a member of the base class `Backlight` (declared in `esp_panel_backlight.hpp`,
outside the sources at hand). -/
inductive BaseCall where
  | setState (s : State)
  | setBrightnessValue (percent : Int)
  deriving DecidableEq, Repr

/-- An object of class `BacklightI2C`: its members `_config.i2c_config` and `_initialized`, and
the calls it has made to its base class, oldest first. -/
structure BacklightI2C where
  _config : esp_panel_backlight_i2c_config_t
  _initialized : Bool
  base_calls : List BaseCall
  deriving DecidableEq, Repr

/-- The constructor `BacklightI2C::BacklightI2C(const Config &config)`. -/
def BacklightI2C.new (config : esp_panel_backlight_i2c_config_t) : BacklightI2C :=
  { _config := config, _initialized := false, base_calls := [] }

/-- The method `BacklightI2C::begin`. -/
def BacklightI2C.begin (bus : Bus) (self : BacklightI2C) (w : World) :
    Bool × BacklightI2C × World :=
  if self._initialized then (true, self, w)
  else
    let r := esp_panel_backlight_i2c_init bus (some self._config) w
    if r.1 = ESP_OK then
      (true, { self with _initialized := true,
                         base_calls := self.base_calls ++ [BaseCall.setState State.BEGIN] }, r.2)
    else
      (false, self, r.2)

/-- The method `BacklightI2C::del`. -/
def BacklightI2C.del (self : BacklightI2C) (w : World) : Bool × BacklightI2C × World :=
  if ¬ self._initialized then (true, self, w)
  else
    let r := esp_panel_backlight_i2c_deinit w
    if r.1 = ESP_OK then
      (true, { self with _initialized := false,
                         base_calls := self.base_calls ++ [BaseCall.setState State.DEINIT] }, r.2)
    else
      (false, self, r.2)

/-- The method `BacklightI2C::setBrightness`. -/
def BacklightI2C.setBrightness (bus : Bus) (percent : Int) (self : BacklightI2C) (w : World) :
    Bool × BacklightI2C × World :=
  if ¬ self._initialized then (false, self, w)
  else
    let r := esp_panel_backlight_i2c_set_brightness bus percent w
    if r.1 = ESP_OK then
      (true, { self with base_calls := self.base_calls ++ [BaseCall.setBrightnessValue percent] },
        r.2)
    else
      (false, self, r.2)

/-- The method `BacklightI2C::on`. -/
def BacklightI2C.on_ (bus : Bus) (self : BacklightI2C) (w : World) :
    Bool × BacklightI2C × World :=
  if ¬ self._initialized then (false, self, w)
  else
    let r := esp_panel_backlight_i2c_set_power bus true w
    if r.1 = ESP_OK then
      (true, { self with base_calls := self.base_calls ++ [BaseCall.setBrightnessValue 100] },
        r.2)
    else
      (false, self, r.2)

/-- The method `BacklightI2C::off`. -/
def BacklightI2C.off (bus : Bus) (self : BacklightI2C) (w : World) :
    Bool × BacklightI2C × World :=
  if ¬ self._initialized then (false, self, w)
  else
    let r := esp_panel_backlight_i2c_set_power bus false w
    if r.1 = ESP_OK then
      (true, { self with base_calls := self.base_calls ++ [BaseCall.setBrightnessValue 0] },
        r.2)
    else
      (false, self, r.2)

/-! ## `esp_lcd_nodsiconf.c`: the "no-config" panel decorator -/

/-- A function pointer, as the address it holds. -/
abbrev FnPtr := Nat

/-- The record `esp_panel_lcd_vendor_init_cmd_t` as `esp_lcd_nodsiconf.c` reads it: `cmd`, the
bytes `data` points to, `data_bytes` and `delay_ms`. -/
structure esp_panel_lcd_vendor_init_cmd_t where
  cmd : Int
  data : List Nat
  data_bytes : Nat
  delay_ms : Nat
  deriving DecidableEq, Repr

/-- The record `nodsiconf_panel_t`, the state of one decorated panel.  A null `io` or
`init_cmds` is `none`; `reset_level` is the one-bit field `flags.reset_level`; `del` and `init`
are the saved functions of the MIPI DPI panel. -/
structure nodsiconf_panel_t where
  io : Option Nat
  reset_gpio_num : Int
  madctl_val : Nat
  colmod_val : Nat
  init_cmds : Option (List esp_panel_lcd_vendor_init_cmd_t)
  init_cmds_size : Nat
  lane_num : Nat
  reset_level : Nat
  del : FnPtr
  init : FnPtr
  deriving DecidableEq, Repr

/-- The macro `NODSICONF_CMD_GS_BIT`, `(1 << 0)`. -/
def NODSICONF_CMD_GS_BIT : Nat := 1 <<< 0

/-- The macro `NODSICONF_CMD_SS_BIT`, `(1 << 1)`. -/
def NODSICONF_CMD_SS_BIT : Nat := 1 <<< 1

/-- The macro `LCD_CMD_BGR_BIT` of ESP-IDF `esp_lcd_panel_commands.h`, `(1 << 3)`. -/
def LCD_CMD_BGR_BIT : Nat := 1 <<< 3

/-- The bit pattern of `~x` for a 32-bit C `int` with `0 ≤ x`. -/
def int_not (x : Nat) : Nat := (2 ^ 32 - 1 - x) % 2 ^ 32

/-- The compound assignment `madctl_val |= bit` on a `uint8_t`. -/
def u8_or_assign (v bit : Nat) : Nat := (v ||| bit) % 256

/-- The compound assignment `madctl_val &= ~bit` on a `uint8_t`: the operands are promoted to
`int`, and the result is narrowed to eight bits. -/
def u8_and_not_assign (v bit : Nat) : Nat := (v &&& int_not bit) % 256

/-- The function `panel_nodsiconf_mirror`, on the decorator state that `panel->user_data`
points to.  The transmission of `LCD_CMD_MADCTL` is commented out in the source, so the
function calls no external service. -/
def panel_nodsiconf_mirror (nodsiconf : nodsiconf_panel_t) (mirror_x mirror_y : Bool) :
    esp_err_t × nodsiconf_panel_t :=
  let madctl_val := nodsiconf.madctl_val
  if nodsiconf.io = none then (ESP_ERR_INVALID_STATE, nodsiconf)
  else
    let madctl_val :=
      if mirror_x then u8_or_assign madctl_val NODSICONF_CMD_GS_BIT
      else u8_and_not_assign madctl_val NODSICONF_CMD_GS_BIT
    let madctl_val :=
      if mirror_y then u8_or_assign madctl_val NODSICONF_CMD_SS_BIT
      else u8_and_not_assign madctl_val NODSICONF_CMD_SS_BIT
    (ESP_OK, { nodsiconf with madctl_val := madctl_val })

/-! ## Vocabulary for the theorems -/

/-- The events of playing the commands `cmds` with every write accepted: for each record its
write, then its delay when that is nonzero. -/
def played (config : esp_panel_backlight_i2c_config_t) :
    List esp_panel_backlight_i2c_cmd_t → List Event
  | [] => []
  | cmd :: rest =>
    Event.write (cmd_write config cmd) ESP_OK ::
      ((if cmd.delay_ms > 0 then [Event.delay cmd.delay_ms] else []) ++ played config rest)

/-- The transport accepts the writes of `cmds` one after the other, when the events before the
first of them are `before`. -/
def Accepts (bus : Bus) (config : esp_panel_backlight_i2c_config_t) :
    List Event → List esp_panel_backlight_i2c_cmd_t → Prop
  | _, [] => True
  | before, cmd :: rest =>
    bus before (cmd_write config cmd) = ESP_OK ∧
      Accepts bus config (before ++ played config [cmd]) rest

/-- The write requests in a list of events, in order. -/
def writes_of : List Event → List I2CWrite
  | [] => []
  | Event.write req _ :: rest => req :: writes_of rest
  | Event.delay _ :: rest => writes_of rest

/-- The milliseconds of suspension in a list of events, summed. -/
def suspended_ms : List Event → Nat
  | [] => 0
  | Event.write _ _ :: rest => suspended_ms rest
  | Event.delay ms :: rest => ms + suspended_ms rest

/-- A transport that accepts every write. -/
def bus_ok : Bus := fun _ _ => ESP_OK

/-- A transport that fails the write made after exactly `n` earlier writes with `ESP_FAIL` and
accepts every other write. -/
def bus_fail_at (n : Nat) : Bus :=
  fun before _ => if (writes_of before).length = n then ESP_FAIL else ESP_OK

/-- A transport whose driver is not installed: every write reports `ESP_ERR_INVALID_STATE`. -/
def bus_not_installed : Bus := fun _ _ => ESP_ERR_INVALID_STATE

/-- A sample configuration: device `0x45` on port 0, three init commands with delays
10, 0 and 20 ms, brightness register `0x86`, full scale 255. -/
def sample_config : esp_panel_backlight_i2c_config_t :=
  { i2c_port := 0, i2c_addr := 0x45, sda_pin := 7, scl_pin := 8, i2c_freq := 100000,
    brightness_cmd := 0x86, power_cmd := 0x85, power_on_value := 1, power_off_value := 0,
    max_brightness := 255,
    init_sequence := some [⟨0x95, 0x11, 10⟩, ⟨0x95, 0x17, 0⟩, ⟨0x96, 0x00, 20⟩] }

/-- A world in which `sample_config` is stored and the controller is marked initialized. -/
def sample_world : World :=
  { g_i2c_config := sample_config, g_i2c_initialized := true, trace := [] }

/-! ## The panel decorators: external types and services

The types `esp_lcd_panel_t` and `esp_lcd_panel_dev_config_t`, the commands `LCD_CMD_*` and
the colour orders belong to ESP-IDF; `esp_panel_lcd_vendor_config_t` is declared in
`esp_panel_lcd_vendor_types.h`.  They are given here with the members the two sources use. -/

/-- The command `LCD_CMD_MADCTL` of ESP-IDF `esp_lcd_panel_commands.h`. -/
def LCD_CMD_MADCTL : Int := 0x36

/-- The command `LCD_CMD_COLMOD` of ESP-IDF `esp_lcd_panel_commands.h`. -/
def LCD_CMD_COLMOD : Int := 0x3A

/-- The enumerator `LCD_RGB_ELEMENT_ORDER_RGB` of ESP-IDF `esp_lcd_types.h`. -/
def LCD_RGB_ELEMENT_ORDER_RGB : Int := 0

/-- The enumerator `LCD_RGB_ELEMENT_ORDER_BGR` of ESP-IDF `esp_lcd_types.h`. -/
def LCD_RGB_ELEMENT_ORDER_BGR : Int := 1

/-- The operation table `esp_lcd_panel_t` of ESP-IDF `esp_lcd_panel_interface.h`: ten function
pointers and the `user_data` pointer (`none` when null). -/
structure esp_lcd_panel_t where
  reset : FnPtr
  init : FnPtr
  del : FnPtr
  draw_bitmap : FnPtr
  mirror : FnPtr
  swap_xy : FnPtr
  set_gap : FnPtr
  invert_color : FnPtr
  disp_on_off : FnPtr
  disp_sleep : FnPtr
  user_data : Option Nat
  deriving DecidableEq, Repr

/-- The member `mipi_config` of the vendor configuration: `lane_num`, the bus handle `dsi_bus`
and the pointer `dpi_config`, each pointer `none` when null. -/
structure mipi_config_t where
  lane_num : Nat
  dsi_bus : Option Nat
  dpi_config : Option Nat
  deriving DecidableEq, Repr

/-- The record `esp_panel_lcd_vendor_config_t` as the two sources read it. -/
structure esp_panel_lcd_vendor_config_t where
  init_cmds : Option (List esp_panel_lcd_vendor_init_cmd_t)
  init_cmds_size : Nat
  mipi_config : mipi_config_t
  deriving DecidableEq, Repr

/-- The record `esp_lcd_panel_dev_config_t` as the two sources read it; `reset_active_high`
is the one-bit member `flags.reset_active_high`, and a null `vendor_config` is `none`. -/
structure esp_lcd_panel_dev_config_t where
  reset_gpio_num : Int
  rgb_ele_order : Int
  bits_per_pixel : Nat
  reset_active_high : Nat
  vendor_config : Option esp_panel_lcd_vendor_config_t
  deriving DecidableEq, Repr

/-- What a panel decorator does to the outside world.  `gpio_config` is always called with
`mode = GPIO_MODE_OUTPUT`; `call` is a call through a saved function pointer of the MIPI DPI
panel.  `tx_param` stands for `esp_lcd_panel_io_tx_param`: every call of it in the two sources
is commented out, so no function below produces it. -/
inductive PanelEvent where
  | calloc (ptr : Option Nat)
  | free (ptr : Option Nat)
  | gpio_config (pin_bit_mask : Nat) (ret : esp_err_t)
  | gpio_reset_pin (gpio_num : Int)
  | gpio_set_level (gpio_num : Int) (level : Nat)
  | vTaskDelay (ms : Nat)
  | esp_rom_delay_us (us : Nat)
  | esp_lcd_new_panel_dpi (dsi_bus dpi_config : Nat) (ret : esp_err_t)
  | call (fn : FnPtr) (ret : esp_err_t)
  | tx_param (io_handle : Nat) (lcd_cmd : Int) (param : List Nat)
  deriving DecidableEq, Repr

/-- The outcome of `esp_lcd_new_panel_dpi(dsi_bus, dpi_config, ret_panel)`: `ESP_OK` with the
panel object now in `*ret_panel`, or an error code with whatever `*ret_panel` holds then. -/
inductive DpiResult where
  | created (panel : esp_lcd_panel_t)
  | failed (code : esp_err_t) (h : code ≠ ESP_OK) (slot : Option esp_lcd_panel_t)

/-- The services outside the repository whose results the decorators use, each given
everything that happened before the call: `calloc` (the address of the zeroed block, `none`
when out of memory), `gpio_config` (by `pin_bit_mask`), `esp_lcd_new_panel_dpi` (by bus,
configuration and the present content of `*ret_panel`) and a call through a saved function
pointer. -/
structure PanelEnv where
  calloc : List PanelEvent → Option Nat
  gpio_config : List PanelEvent → Nat → esp_err_t
  esp_lcd_new_panel_dpi : List PanelEvent → Nat → Nat → Option esp_lcd_panel_t → DpiResult
  call : List PanelEvent → FnPtr → esp_err_t

/-- The C expression `!level` for a one-bit `level`. -/
def logical_not (level : Nat) : Nat := if level = 0 then 1 else 0

/-- The entries the `for` loop of either initialize visits: the caller's table up to
`init_cmds_size` when `init_cmds` is non-null, else the empty `vendor_specific_init_default`.
(A size beyond the end of the table makes the C loop read out of bounds; the model stops at the
end of the table.) -/
def init_table (init_cmds : Option (List esp_panel_lcd_vendor_init_cmd_t))
    (init_cmds_size : Nat) : List esp_panel_lcd_vendor_init_cmd_t :=
  match init_cmds with
  | some cmds => cmds.take init_cmds_size
  | none => []

/-! ## `esp_lcd_nodsiconf.c`, continued -/

/-- The body of the `for` loop of `panel_nodsiconf_init` for one entry: an entry with payload
whose command is `LCD_CMD_MADCTL` stores its first payload byte in the shadow `madctl_val`
(left as it is when the payload is empty although `data_bytes > 0`); the transmission is
commented out; then `vTaskDelay(pdMS_TO_TICKS(delay_ms))`, also for a zero delay. -/
def nodsiconf_init_step (cmd : esp_panel_lcd_vendor_init_cmd_t)
    (st : nodsiconf_panel_t × List PanelEvent) : nodsiconf_panel_t × List PanelEvent :=
  let nodsiconf :=
    if cmd.data_bytes > 0 then
      if cmd.cmd = LCD_CMD_MADCTL then
        { st.1 with madctl_val := cmd.data.headD st.1.madctl_val }
      else st.1
    else st.1
  (nodsiconf, st.2 ++ [PanelEvent.vTaskDelay cmd.delay_ms])

/-- The `for` loop of `panel_nodsiconf_init`. -/
def nodsiconf_init_loop :
    List esp_panel_lcd_vendor_init_cmd_t → nodsiconf_panel_t × List PanelEvent →
      nodsiconf_panel_t × List PanelEvent
  | [], st => st
  | cmd :: rest, st => nodsiconf_init_loop rest (nodsiconf_init_step cmd st)

/-- The function `panel_nodsiconf_init`: the loop, then the saved `init` of the MIPI DPI
panel, whose error is returned by `ESP_RETURN_ON_ERROR`. -/
def panel_nodsiconf_init (env : PanelEnv) (nodsiconf : nodsiconf_panel_t)
    (tr : List PanelEvent) : esp_err_t × nodsiconf_panel_t × List PanelEvent :=
  let st := nodsiconf_init_loop (init_table nodsiconf.init_cmds nodsiconf.init_cmds_size)
    (nodsiconf, tr)
  let ret := env.call st.2 st.1.init
  if ret ≠ ESP_OK then (ret, st.1, st.2 ++ [PanelEvent.call st.1.init ret])
  else (ESP_OK, st.1, st.2 ++ [PanelEvent.call st.1.init ret])

/-- The function `panel_nodsiconf_del`; `panel` is the object whose `user_data` points to
`nodsiconf`.  The result of the saved `del` is not used. -/
def panel_nodsiconf_del (env : PanelEnv) (panel : esp_lcd_panel_t)
    (nodsiconf : nodsiconf_panel_t) (tr : List PanelEvent) : esp_err_t × List PanelEvent :=
  let tr1 :=
    if nodsiconf.reset_gpio_num ≥ 0 then tr ++ [PanelEvent.gpio_reset_pin nodsiconf.reset_gpio_num]
    else tr
  let tr2 := tr1 ++ [PanelEvent.call nodsiconf.del (env.call tr1 nodsiconf.del)]
  (ESP_OK, tr2 ++ [PanelEvent.free panel.user_data])

/-- The function `panel_nodsiconf_reset`; the software reset command is commented out. -/
def panel_nodsiconf_reset (nodsiconf : nodsiconf_panel_t) (tr : List PanelEvent) :
    esp_err_t × List PanelEvent :=
  if nodsiconf.reset_gpio_num ≥ 0 then
    (ESP_OK, tr ++
      [PanelEvent.gpio_set_level nodsiconf.reset_gpio_num nodsiconf.reset_level,
       PanelEvent.vTaskDelay 10,
       PanelEvent.gpio_set_level nodsiconf.reset_gpio_num (logical_not nodsiconf.reset_level),
       PanelEvent.vTaskDelay 10])
  else if nodsiconf.io ≠ none then
    (ESP_OK, tr ++ [PanelEvent.vTaskDelay 20])
  else (ESP_OK, tr)

/-! ## `esp_lcd_simple.c`: the "simple" panel decorator -/

/-- The record `simple_panel_t`, member for member like `nodsiconf_panel_t`. -/
structure simple_panel_t where
  io : Option Nat
  reset_gpio_num : Int
  madctl_val : Nat
  colmod_val : Nat
  init_cmds : Option (List esp_panel_lcd_vendor_init_cmd_t)
  init_cmds_size : Nat
  lane_num : Nat
  reset_level : Nat
  del : FnPtr
  init : FnPtr
  deriving DecidableEq, Repr

/-- The body of the `for` loop of `panel_simple_init` for one entry: the shadow update as in
the other variant, no transmission, and `vTaskDelay` only when `delay_ms > 0`. -/
def simple_init_step (cmd : esp_panel_lcd_vendor_init_cmd_t)
    (st : simple_panel_t × List PanelEvent) : simple_panel_t × List PanelEvent :=
  let simple :=
    if cmd.data_bytes > 0 then
      if cmd.cmd = LCD_CMD_MADCTL then
        { st.1 with madctl_val := cmd.data.headD st.1.madctl_val }
      else st.1
    else st.1
  (simple, if cmd.delay_ms > 0 then st.2 ++ [PanelEvent.vTaskDelay cmd.delay_ms] else st.2)

/-- The `for` loop of `panel_simple_init`. -/
def simple_init_loop :
    List esp_panel_lcd_vendor_init_cmd_t → simple_panel_t × List PanelEvent →
      simple_panel_t × List PanelEvent
  | [], st => st
  | cmd :: rest, st => simple_init_loop rest (simple_init_step cmd st)

/-- The function `panel_simple_init`. -/
def panel_simple_init (env : PanelEnv) (simple : simple_panel_t)
    (tr : List PanelEvent) : esp_err_t × simple_panel_t × List PanelEvent :=
  let st := simple_init_loop (init_table simple.init_cmds simple.init_cmds_size) (simple, tr)
  let ret := env.call st.2 st.1.init
  if ret ≠ ESP_OK then (ret, st.1, st.2 ++ [PanelEvent.call st.1.init ret])
  else (ESP_OK, st.1, st.2 ++ [PanelEvent.call st.1.init ret])

/-- The function `panel_simple_del`. -/
def panel_simple_del (env : PanelEnv) (panel : esp_lcd_panel_t)
    (simple : simple_panel_t) (tr : List PanelEvent) : esp_err_t × List PanelEvent :=
  let tr1 :=
    if simple.reset_gpio_num ≥ 0 then tr ++ [PanelEvent.gpio_reset_pin simple.reset_gpio_num]
    else tr
  let tr2 := tr1 ++ [PanelEvent.call simple.del (env.call tr1 simple.del)]
  (ESP_OK, tr2 ++ [PanelEvent.free panel.user_data])

/-- The function `panel_simple_reset`. -/
def panel_simple_reset (simple : simple_panel_t) (tr : List PanelEvent) :
    esp_err_t × List PanelEvent :=
  if simple.reset_gpio_num ≥ 0 then
    (ESP_OK, tr ++
      [PanelEvent.gpio_set_level simple.reset_gpio_num (logical_not simple.reset_level),
       PanelEvent.esp_rom_delay_us (10 * 1000),
       PanelEvent.gpio_set_level simple.reset_gpio_num simple.reset_level,
       PanelEvent.esp_rom_delay_us (10 * 1000)])
  else (ESP_OK, tr)

/-- The function `panel_simple_invert_color`: it only logs. -/
def panel_simple_invert_color (simple : simple_panel_t) (_invert_color_data : Bool)
    (tr : List PanelEvent) : esp_err_t × simple_panel_t × List PanelEvent :=
  (ESP_OK, simple, tr)

/-- The function `panel_simple_mirror`: it only logs. -/
def panel_simple_mirror (simple : simple_panel_t) (_mirror_x _mirror_y : Bool)
    (tr : List PanelEvent) : esp_err_t × simple_panel_t × List PanelEvent :=
  (ESP_OK, simple, tr)

/-- The function `panel_simple_disp_on_off`: it only logs. -/
def panel_simple_disp_on_off (simple : simple_panel_t) (_on_off : Bool)
    (tr : List PanelEvent) : esp_err_t × simple_panel_t × List PanelEvent :=
  (ESP_OK, simple, tr)

/-- The function `panel_simple_sleep`: it only logs. -/
def panel_simple_sleep (simple : simple_panel_t) (_sleep : Bool)
    (tr : List PanelEvent) : esp_err_t × simple_panel_t × List PanelEvent :=
  (ESP_OK, simple, tr)

/-! ## The two constructors -/

/-- The addresses of the seven static functions a decorator installs in the operation
table. -/
structure panel_fns where
  del : FnPtr
  init : FnPtr
  reset : FnPtr
  mirror : FnPtr
  invert_color : FnPtr
  disp_on_off : FnPtr
  disp_sleep : FnPtr
  deriving DecidableEq, Repr

/-- What a constructor leaves behind: its return value, the content of `*ret_panel` (`none`
when there is no slot or the slot is null), the decorator state when it is still allocated,
and the events so far. -/
structure CreateResult (σ : Type) where
  ret : esp_err_t
  ret_panel : Option esp_lcd_panel_t
  state : Option σ
  trace : List PanelEvent

/-- The member `pin_bit_mask = 1ULL << reset_gpio_num` of the `gpio_config_t`. -/
def reset_pin_mask (reset_gpio_num : Int) : Nat := (1 <<< reset_gpio_num.toNat) % 2 ^ 64

/-- The code after the label `err` of either constructor, entered with the decorator state
allocated at `ptr`: release the reset pin if one was given, free the state, return `ret`. -/
def new_panel_err {σ : Type} (reset_gpio_num : Int) (ptr : Nat) (ret : esp_err_t)
    (slot : Option esp_lcd_panel_t) (tr : List PanelEvent) : CreateResult σ :=
  { ret := ret, ret_panel := slot, state := none,
    trace :=
      (if reset_gpio_num ≥ 0 then tr ++ [PanelEvent.gpio_reset_pin reset_gpio_num] else tr) ++
        [PanelEvent.free (some ptr)] }

/-- The function `esp_lcd_new_panel_nodsiconf`.  `fns` holds the addresses of the seven static
functions `panel_nodsiconf_*`; `ret_panel` is `none` for a null pointer and otherwise the
present content of `*ret_panel`. -/
def esp_lcd_new_panel_nodsiconf (env : PanelEnv) (fns : panel_fns) (io : Option Nat)
    (panel_dev_config : Option esp_lcd_panel_dev_config_t)
    (ret_panel : Option (Option esp_lcd_panel_t)) (tr : List PanelEvent) :
    CreateResult nodsiconf_panel_t :=
  match io, panel_dev_config, ret_panel with
  | some io_handle, some cfg, some slot =>
    match cfg.vendor_config with
    | none => { ret := ESP_ERR_INVALID_ARG, ret_panel := slot, state := none, trace := tr }
    | some vendor_config =>
      match vendor_config.mipi_config.dpi_config, vendor_config.mipi_config.dsi_bus with
      | some dpi_config, some dsi_bus =>
        match env.calloc tr with
        | none =>
          { ret := ESP_ERR_NO_MEM, ret_panel := slot, state := none,
            trace := tr ++ [PanelEvent.calloc none] }
        | some ptr =>
          let tr1 := tr ++ [PanelEvent.calloc (some ptr)]
          let mask := reset_pin_mask cfg.reset_gpio_num
          let gpio_ret := if cfg.reset_gpio_num ≥ 0 then env.gpio_config tr1 mask else ESP_OK
          let tr2 :=
            if cfg.reset_gpio_num ≥ 0 then tr1 ++ [PanelEvent.gpio_config mask gpio_ret]
            else tr1
          if gpio_ret ≠ ESP_OK then
            new_panel_err cfg.reset_gpio_num ptr gpio_ret slot tr2
          else if ¬ (cfg.rgb_ele_order = LCD_RGB_ELEMENT_ORDER_RGB ∨
              cfg.rgb_ele_order = LCD_RGB_ELEMENT_ORDER_BGR) then
            new_panel_err cfg.reset_gpio_num ptr ESP_ERR_NOT_SUPPORTED slot tr2
          else if ¬ (cfg.bits_per_pixel = 16 ∨ cfg.bits_per_pixel = 18 ∨
              cfg.bits_per_pixel = 24) then
            new_panel_err cfg.reset_gpio_num ptr ESP_ERR_NOT_SUPPORTED slot tr2
          else
            let nodsiconf : nodsiconf_panel_t :=
              { io := some io_handle,
                reset_gpio_num := cfg.reset_gpio_num,
                madctl_val :=
                  if cfg.rgb_ele_order = LCD_RGB_ELEMENT_ORDER_RGB then 0
                  else u8_or_assign 0 LCD_CMD_BGR_BIT,
                colmod_val :=
                  if cfg.bits_per_pixel = 16 then 0x55
                  else if cfg.bits_per_pixel = 18 then 0x66
                  else 0x77,
                init_cmds := vendor_config.init_cmds,
                init_cmds_size := vendor_config.init_cmds_size % 2 ^ 16,
                lane_num := vendor_config.mipi_config.lane_num % 2 ^ 8,
                reset_level := cfg.reset_active_high % 2,
                del := 0,
                init := 0 }
            match env.esp_lcd_new_panel_dpi tr2 dsi_bus dpi_config slot with
            | DpiResult.failed code _ slot_after =>
              new_panel_err cfg.reset_gpio_num ptr code slot_after
                (tr2 ++ [PanelEvent.esp_lcd_new_panel_dpi dsi_bus dpi_config code])
            | DpiResult.created panel =>
              { ret := ESP_OK,
                ret_panel := some
                  { panel with
                    del := fns.del, init := fns.init, reset := fns.reset,
                    mirror := fns.mirror, invert_color := fns.invert_color,
                    disp_on_off := fns.disp_on_off, disp_sleep := fns.disp_sleep,
                    user_data := some ptr },
                state := some { nodsiconf with del := panel.del, init := panel.init },
                trace := tr2 ++ [PanelEvent.esp_lcd_new_panel_dpi dsi_bus dpi_config ESP_OK] }
      | _, _ => { ret := ESP_ERR_INVALID_ARG, ret_panel := slot, state := none, trace := tr }
  | _, _, _ =>
    { ret := ESP_ERR_INVALID_ARG, ret_panel := ret_panel.join, state := none, trace := tr }

/-- The function `esp_lcd_new_panel_simple`.  `fns` holds the addresses of the seven static
functions `panel_simple_*`; `ret_panel` is `none` for a null pointer and otherwise the
present content of `*ret_panel`. -/
def esp_lcd_new_panel_simple (env : PanelEnv) (fns : panel_fns) (io : Option Nat)
    (panel_dev_config : Option esp_lcd_panel_dev_config_t)
    (ret_panel : Option (Option esp_lcd_panel_t)) (tr : List PanelEvent) :
    CreateResult simple_panel_t :=
  match io, panel_dev_config, ret_panel with
  | some io_handle, some cfg, some slot =>
    match cfg.vendor_config with
    | none => { ret := ESP_ERR_INVALID_ARG, ret_panel := slot, state := none, trace := tr }
    | some vendor_config =>
      match vendor_config.mipi_config.dpi_config, vendor_config.mipi_config.dsi_bus with
      | some dpi_config, some dsi_bus =>
        match env.calloc tr with
        | none =>
          { ret := ESP_ERR_NO_MEM, ret_panel := slot, state := none,
            trace := tr ++ [PanelEvent.calloc none] }
        | some ptr =>
          let tr1 := tr ++ [PanelEvent.calloc (some ptr)]
          let mask := reset_pin_mask cfg.reset_gpio_num
          let gpio_ret := if cfg.reset_gpio_num ≥ 0 then env.gpio_config tr1 mask else ESP_OK
          let tr2 :=
            if cfg.reset_gpio_num ≥ 0 then tr1 ++ [PanelEvent.gpio_config mask gpio_ret]
            else tr1
          if gpio_ret ≠ ESP_OK then
            new_panel_err cfg.reset_gpio_num ptr gpio_ret slot tr2
          else if ¬ (cfg.rgb_ele_order = LCD_RGB_ELEMENT_ORDER_RGB ∨
              cfg.rgb_ele_order = LCD_RGB_ELEMENT_ORDER_BGR) then
            new_panel_err cfg.reset_gpio_num ptr ESP_ERR_NOT_SUPPORTED slot tr2
          else if ¬ (cfg.bits_per_pixel = 16 ∨ cfg.bits_per_pixel = 18 ∨
              cfg.bits_per_pixel = 24) then
            new_panel_err cfg.reset_gpio_num ptr ESP_ERR_NOT_SUPPORTED slot tr2
          else
            let simple : simple_panel_t :=
              { io := some io_handle,
                reset_gpio_num := cfg.reset_gpio_num,
                madctl_val :=
                  if cfg.rgb_ele_order = LCD_RGB_ELEMENT_ORDER_RGB then 0
                  else u8_or_assign 0 LCD_CMD_BGR_BIT,
                colmod_val :=
                  if cfg.bits_per_pixel = 16 then 0x55
                  else if cfg.bits_per_pixel = 18 then 0x66
                  else 0x77,
                init_cmds := vendor_config.init_cmds,
                init_cmds_size := vendor_config.init_cmds_size % 2 ^ 16,
                lane_num := vendor_config.mipi_config.lane_num % 2 ^ 8,
                reset_level := cfg.reset_active_high % 2,
                del := 0,
                init := 0 }
            match env.esp_lcd_new_panel_dpi tr2 dsi_bus dpi_config slot with
            | DpiResult.failed code _ slot_after =>
              new_panel_err cfg.reset_gpio_num ptr code slot_after
                (tr2 ++ [PanelEvent.esp_lcd_new_panel_dpi dsi_bus dpi_config code])
            | DpiResult.created panel =>
              { ret := ESP_OK,
                ret_panel := some
                  { panel with
                    del := fns.del, init := fns.init, reset := fns.reset,
                    mirror := fns.mirror, invert_color := fns.invert_color,
                    disp_on_off := fns.disp_on_off, disp_sleep := fns.disp_sleep,
                    user_data := some ptr },
                state := some { simple with del := panel.del, init := panel.init },
                trace := tr2 ++ [PanelEvent.esp_lcd_new_panel_dpi dsi_bus dpi_config ESP_OK] }
      | _, _ => { ret := ESP_ERR_INVALID_ARG, ret_panel := slot, state := none, trace := tr }
  | _, _, _ =>
    { ret := ESP_ERR_INVALID_ARG, ret_panel := ret_panel.join, state := none, trace := tr }

/-! ## Vocabulary for the panel theorems -/

/-- The number of `gpio_reset_pin` calls in a list of events. -/
def count_release : List PanelEvent → Nat
  | [] => 0
  | PanelEvent.gpio_reset_pin _ :: rest => count_release rest + 1
  | _ :: rest => count_release rest

/-- The number of calls through a saved function pointer in a list of events. -/
def count_call : List PanelEvent → Nat
  | [] => 0
  | PanelEvent.call _ _ :: rest => count_call rest + 1
  | _ :: rest => count_call rest

/-- The number of `free` calls in a list of events. -/
def count_free : List PanelEvent → Nat
  | [] => 0
  | PanelEvent.free _ :: rest => count_free rest + 1
  | _ :: rest => count_free rest

/-- The number of transmissions over the transport handle in a list of events. -/
def count_tx : List PanelEvent → Nat
  | [] => 0
  | PanelEvent.tx_param _ _ _ :: rest => count_tx rest + 1
  | _ :: rest => count_tx rest

/-- The number of `esp_lcd_new_panel_dpi` calls in a list of events. -/
def count_dpi : List PanelEvent → Nat
  | [] => 0
  | PanelEvent.esp_lcd_new_panel_dpi _ _ _ :: rest => count_dpi rest + 1
  | _ :: rest => count_dpi rest

/-- The number of GPIO calls of any kind in a list of events. -/
def count_gpio : List PanelEvent → Nat
  | [] => 0
  | PanelEvent.gpio_config _ _ :: rest => count_gpio rest + 1
  | PanelEvent.gpio_reset_pin _ :: rest => count_gpio rest + 1
  | PanelEvent.gpio_set_level _ _ :: rest => count_gpio rest + 1
  | _ :: rest => count_gpio rest

/-- The two argument checks at the top of either constructor: `io`, `panel_dev_config` and
`ret_panel` non-null, then `vendor_config`, its `mipi_config.dpi_config` and its
`mipi_config.dsi_bus` non-null. -/
def new_panel_args_valid (io : Option Nat) (panel_dev_config : Option esp_lcd_panel_dev_config_t)
    (ret_panel : Option (Option esp_lcd_panel_t)) : Bool :=
  io.isSome && panel_dev_config.isSome && ret_panel.isSome &&
    match panel_dev_config with
    | some cfg =>
      match cfg.vendor_config with
      | some vendor_config =>
        vendor_config.mipi_config.dpi_config.isSome && vendor_config.mipi_config.dsi_bus.isSome
      | none => false
    | none => false

/-- A MIPI DPI panel object as the vendor might create it. -/
def sample_dpi_panel : esp_lcd_panel_t :=
  { reset := 101, init := 102, del := 103, draw_bitmap := 104, mirror := 105, swap_xy := 106,
    set_gap := 107, invert_color := 108, disp_on_off := 109, disp_sleep := 110,
    user_data := none }

/-- Sample addresses for the seven functions of a decorator. -/
def sample_fns : panel_fns :=
  { del := 201, init := 202, reset := 203, mirror := 204, invert_color := 205,
    disp_on_off := 206, disp_sleep := 207 }

/-- Services that all succeed: memory at `0x1000`, GPIO configured, the vendor creates
`sample_dpi_panel`, saved functions return `ESP_OK`. -/
def env_ok : PanelEnv :=
  { calloc := fun _ => some 0x1000,
    gpio_config := fun _ _ => ESP_OK,
    esp_lcd_new_panel_dpi := fun _ _ _ _ => DpiResult.created sample_dpi_panel,
    call := fun _ _ => ESP_OK }

/-- As `env_ok`, but every saved function of the vendor returns `ESP_FAIL`. -/
def env_call_fails : PanelEnv :=
  { env_ok with call := fun _ _ => ESP_FAIL }

/-- As `env_ok`, but `esp_lcd_new_panel_dpi` fails with `ESP_ERR_NO_MEM` and leaves
`*ret_panel` as it was. -/
def env_dpi_fails : PanelEnv :=
  { env_ok with
    esp_lcd_new_panel_dpi := fun _ _ _ slot => DpiResult.failed ESP_ERR_NO_MEM (by decide) slot }

/-- A sample init table: sleep-out with 120 ms, a `MADCTL` entry with payload `0x08` and no
delay, display-on with 20 ms. -/
def sample_init_cmds : List esp_panel_lcd_vendor_init_cmd_t :=
  [⟨0x11, [0x00], 1, 120⟩, ⟨0x36, [0x08], 1, 0⟩, ⟨0x29, [0x00], 1, 20⟩]

/-- A sample device configuration: reset on GPIO 5, active low, RGB order, 16 bits per pixel,
the sample init table, two lanes. -/
def sample_dev_config : esp_lcd_panel_dev_config_t :=
  { reset_gpio_num := 5, rgb_ele_order := 0, bits_per_pixel := 16, reset_active_high := 0,
    vendor_config := some
      { init_cmds := some sample_init_cmds, init_cmds_size := 3,
        mipi_config := { lane_num := 2, dsi_bus := some 0x2000, dpi_config := some 0x3000 } } }

/-- The state of a no-config decorator made from `sample_dev_config`. -/
def sample_nodsiconf : nodsiconf_panel_t :=
  { io := some 1, reset_gpio_num := 5, madctl_val := 0, colmod_val := 0x55,
    init_cmds := some sample_init_cmds, init_cmds_size := 3, lane_num := 2, reset_level := 0,
    del := 103, init := 102 }

/-- The state of a simple decorator made from `sample_dev_config`. -/
def sample_simple : simple_panel_t :=
  { io := some 1, reset_gpio_num := 5, madctl_val := 0, colmod_val := 0x55,
    init_cmds := some sample_init_cmds, init_cmds_size := 3, lane_num := 2, reset_level := 0,
    del := 103, init := 102 }

/-- The operation table of a decorated sample panel. -/
def sample_decorated_panel : esp_lcd_panel_t :=
  { sample_dpi_panel with
    del := 201, init := 202, reset := 203, mirror := 204, invert_color := 205,
    disp_on_off := 206, disp_sleep := 207, user_data := some 0x1000 }

end EspPanel

namespace EspPanel

/-! ## Shared lemmas -/

theorem set_brightness_uninit (bus : Bus) (percent : Int) (w : World)
    (h : w.g_i2c_initialized = false) :
    esp_panel_backlight_i2c_set_brightness bus percent w = (ESP_ERR_INVALID_STATE, w) := by
  simp [esp_panel_backlight_i2c_set_brightness, h]

theorem set_power_uninit (bus : Bus) (on_ : Bool) (w : World)
    (h : w.g_i2c_initialized = false) :
    esp_panel_backlight_i2c_set_power bus on_ w = (ESP_ERR_INVALID_STATE, w) := by
  simp [esp_panel_backlight_i2c_set_power, h]

theorem set_brightness_in_range (bus : Bus) (percent : Int) (w : World)
    (hinit : w.g_i2c_initialized = true) (h0 : 0 ≤ percent) (h100 : percent ≤ 100) :
    esp_panel_backlight_i2c_set_brightness bus percent w =
      (bus w.trace (brightness_write w.g_i2c_config percent),
        { w with trace := w.trace ++
            [Event.write (brightness_write w.g_i2c_config percent)
              (bus w.trace (brightness_write w.g_i2c_config percent))] }) := by
  simp only [esp_panel_backlight_i2c_set_brightness, hinit, i2c_master_write_to_device]
  have hr : percent ≥ 0 ∧ percent ≤ 100 := ⟨h0, h100⟩
  simp only [hr]
  by_cases hb : bus w.trace (brightness_write w.g_i2c_config percent) = ESP_OK
  · simp [hb]
  · simp [hb]

/-- A product that fits a 32-bit `int` is not changed by the wrap. -/
theorem wrap_int32_of_fits (x : Int) (hlo : -2147483648 ≤ x) (hhi : x ≤ 2147483647) :
    wrap_int32 x = x := by
  unfold wrap_int32
  omega

/-- For `0 ≤ percent ≤ 100` and `|max_brightness| ≤ 21474836` the product does not overflow:
the computed value is the truncated quotient of the exact product. -/
theorem brightness_value_no_overflow (percent max_brightness : Int)
    (h0 : 0 ≤ percent) (h100 : percent ≤ 100)
    (hlo : -21474836 ≤ max_brightness) (hhi : max_brightness ≤ 21474836) :
    brightness_value percent max_brightness = Int.tdiv (percent * max_brightness) 100 := by
  unfold brightness_value
  have h1 : percent * max_brightness ≤ percent * 21474836 :=
    Int.mul_le_mul_of_nonneg_left hhi h0
  have h2 : percent * (-21474836) ≤ percent * max_brightness :=
    Int.mul_le_mul_of_nonneg_left hlo h0
  rw [wrap_int32_of_fits _ (by omega) (by omega)]

/-- Beyond that bound the product wraps: with `max_brightness = 30000000` and
`percent = 100` the 32-bit product is `-1294967296` and the data byte is 88. -/
theorem brightness_value_wraps :
    wrap_int32 (100 * 30000000) = -1294967296 ∧ to_uint8 (brightness_value 100 30000000) = 88 := by
  decide

theorem brightness_value_fits (percent max_brightness : Int)
    (h0 : 0 ≤ percent) (h100 : percent ≤ 100)
    (hm0 : 0 ≤ max_brightness) (hm : max_brightness ≤ 255) :
    0 ≤ brightness_value percent max_brightness ∧
      brightness_value percent max_brightness ≤ max_brightness := by
  rw [brightness_value_no_overflow percent max_brightness h0 h100 (by omega) (by omega)]
  have hp : 0 ≤ percent * max_brightness := Int.mul_nonneg h0 hm0
  have hq : percent * max_brightness ≤ 100 * max_brightness :=
    Int.mul_le_mul_of_nonneg_right h100 hm0
  rw [Int.tdiv_eq_ediv hp (by decide)]
  omega

theorem played_cons (config : esp_panel_backlight_i2c_config_t)
    (cmd : esp_panel_backlight_i2c_cmd_t) (rest : List esp_panel_backlight_i2c_cmd_t) :
    played config (cmd :: rest) = played config [cmd] ++ played config rest := by
  simp [played]

theorem played_append (config : esp_panel_backlight_i2c_config_t)
    (pre rest : List esp_panel_backlight_i2c_cmd_t) :
    played config (pre ++ rest) = played config pre ++ played config rest := by
  induction pre with
  | nil => simp [played]
  | cons c cs ih =>
    rw [List.cons_append, played_cons, ih, played_cons config c cs, List.append_assoc]

theorem writes_of_append (xs ys : List Event) :
    writes_of (xs ++ ys) = writes_of xs ++ writes_of ys := by
  induction xs with
  | nil => simp [writes_of]
  | cons e es ih => cases e <;> simp [writes_of, ih]

theorem suspended_ms_append (xs ys : List Event) :
    suspended_ms (xs ++ ys) = suspended_ms xs + suspended_ms ys := by
  induction xs with
  | nil => simp [suspended_ms]
  | cons e es ih => cases e <;> simp [suspended_ms, ih, Nat.add_assoc]

theorem writes_of_played (config : esp_panel_backlight_i2c_config_t)
    (cmds : List esp_panel_backlight_i2c_cmd_t) :
    writes_of (played config cmds) = cmds.map (cmd_write config) := by
  induction cmds with
  | nil => simp [played, writes_of]
  | cons c cs ih =>
    by_cases hd : c.delay_ms > 0
    · simp [played, writes_of, hd, ih]
    · simp [played, writes_of, hd, ih]

theorem suspended_ms_played (config : esp_panel_backlight_i2c_config_t)
    (cmds : List esp_panel_backlight_i2c_cmd_t) :
    suspended_ms (played config cmds) = (cmds.map (fun c => c.delay_ms)).sum := by
  induction cmds with
  | nil => simp [played, suspended_ms]
  | cons c cs ih =>
    by_cases hd : c.delay_ms > 0
    · simp [played, suspended_ms, hd, ih]
    · have h0 : c.delay_ms = 0 := by omega
      simp [played, suspended_ms, h0, ih]

/-- One accepted command: the loop goes on with the rest, after the write and the delay. -/
theorem init_loop_step_ok (bus : Bus) (config : esp_panel_backlight_i2c_config_t)
    (cmd : esp_panel_backlight_i2c_cmd_t) (rest : List esp_panel_backlight_i2c_cmd_t)
    (w : World) (h : bus w.trace (cmd_write config cmd) = ESP_OK) :
    init_loop bus config (cmd :: rest) w =
      init_loop bus config rest { w with trace := w.trace ++ played config [cmd] } := by
  by_cases hd : cmd.delay_ms > 0
  · simp [init_loop, i2c_master_write_to_device, h, hd, vTaskDelay, played]
  · simp [init_loop, i2c_master_write_to_device, h, hd, played]

/-- One refused command: the loop returns at once with the result of that write. -/
theorem init_loop_step_fail (bus : Bus) (config : esp_panel_backlight_i2c_config_t)
    (cmd : esp_panel_backlight_i2c_cmd_t) (rest : List esp_panel_backlight_i2c_cmd_t)
    (w : World) (h : bus w.trace (cmd_write config cmd) ≠ ESP_OK) :
    init_loop bus config (cmd :: rest) w =
      (bus w.trace (cmd_write config cmd),
        { w with trace := w.trace ++
            [Event.write (cmd_write config cmd) (bus w.trace (cmd_write config cmd))] }) := by
  simp [init_loop, i2c_master_write_to_device, h]

/-- A run of accepted commands: the loop goes on with what follows them. -/
theorem init_loop_accepts (bus : Bus) (config : esp_panel_backlight_i2c_config_t)
    (pre rest : List esp_panel_backlight_i2c_cmd_t) (w : World)
    (h : Accepts bus config w.trace pre) :
    init_loop bus config (pre ++ rest) w =
      init_loop bus config rest { w with trace := w.trace ++ played config pre } := by
  induction pre generalizing w with
  | nil => simp [played]
  | cons c cs ih =>
    obtain ⟨hc, hcs⟩ := h
    rw [List.cons_append, init_loop_step_ok bus config c (cs ++ rest) w hc]
    rw [ih { w with trace := w.trace ++ played config [c] } hcs]
    rw [played_cons config c cs]
    simp [List.append_assoc]

/-- The loop changes neither `g_i2c_config` nor `g_i2c_initialized`, and only appends to the
trace. -/
theorem init_loop_frame (bus : Bus) (config : esp_panel_backlight_i2c_config_t)
    (cmds : List esp_panel_backlight_i2c_cmd_t) (w : World) :
    (init_loop bus config cmds w).2.g_i2c_config = w.g_i2c_config ∧
      (init_loop bus config cmds w).2.g_i2c_initialized = w.g_i2c_initialized ∧
      ∃ ext, (init_loop bus config cmds w).2.trace = w.trace ++ ext := by
  induction cmds generalizing w with
  | nil => exact ⟨rfl, rfl, [], by simp [init_loop]⟩
  | cons c cs ih =>
    by_cases hc : bus w.trace (cmd_write config c) = ESP_OK
    · rw [init_loop_step_ok bus config c cs w hc]
      obtain ⟨h1, h2, ext, h3⟩ := ih { w with trace := w.trace ++ played config [c] }
      exact ⟨h1, h2, played config [c] ++ ext, by rw [h3]; simp [List.append_assoc]⟩
    · rw [init_loop_step_fail bus config c cs w hc]
      exact ⟨rfl, rfl, _, rfl⟩

/-- What `esp_panel_backlight_i2c_init` does with a configuration that passes its checks. -/
theorem init_valid (bus : Bus) (config : esp_panel_backlight_i2c_config_t)
    (seq : List esp_panel_backlight_i2c_cmd_t) (w : World)
    (hseq : config.init_sequence = some seq) (hne : seq ≠ []) :
    esp_panel_backlight_i2c_init bus (some config) w =
      if bus w.trace (probe_write config) = ESP_ERR_INVALID_STATE then
        (ESP_ERR_INVALID_STATE,
          { w with trace := w.trace ++
              [Event.write (probe_write config) ESP_ERR_INVALID_STATE] })
      else
        init_loop bus config seq
          { g_i2c_config := config, g_i2c_initialized := true,
            trace := w.trace ++
              [Event.write (probe_write config) (bus w.trace (probe_write config))] } := by
  have hlen : config.init_sequence_len > 0 := by
    simp only [esp_panel_backlight_i2c_config_t.init_sequence_len, hseq]
    have : 0 < seq.length := List.length_pos.mpr hne
    omega
  simp only [esp_panel_backlight_i2c_init, hseq, hlen, i2c_master_write_to_device]
  by_cases hp : bus w.trace (probe_write config) = ESP_ERR_INVALID_STATE
  · simp [hp]
  · simp [hp]

/-- After `esp_panel_backlight_i2c_deinit` the flag is false, whatever it was. -/
theorem deinit_eq (w : World) :
    esp_panel_backlight_i2c_deinit w = (ESP_OK, { w with g_i2c_initialized := false }) := by
  cases w with
  | mk c i t =>
    cases i <;> simp [esp_panel_backlight_i2c_deinit]

set_option maxRecDepth 100000 in
/-- The two assignments of `panel_nodsiconf_mirror` on an eight-bit value, in closed form. -/
theorem mirror_value_closed : ∀ v, v < 256 → ∀ x y : Bool,
    (if y then
        u8_or_assign
          (if x then u8_or_assign v NODSICONF_CMD_GS_BIT
            else u8_and_not_assign v NODSICONF_CMD_GS_BIT) NODSICONF_CMD_SS_BIT
      else
        u8_and_not_assign
          (if x then u8_or_assign v NODSICONF_CMD_GS_BIT
            else u8_and_not_assign v NODSICONF_CMD_GS_BIT) NODSICONF_CMD_SS_BIT) =
      4 * (v / 4) + (if x then 1 else 0) + (if y then 2 else 0) := by
  decide

/-- Two numbers with the same quotient by four have the same bits from bit 2 upward. -/
theorem testBit_of_div_four_eq (a b : Nat) (h : a / 4 = b / 4) (i : Nat) (hi : 2 ≤ i) :
    a.testBit i = b.testBit i := by
  obtain ⟨j, rfl⟩ : ∃ j, i = 2 + j := ⟨i - 2, by omega⟩
  have hpow : (2 : Nat) ^ (2 + j) = 4 * 2 ^ j := by rw [pow_add]; rfl
  rw [Nat.testBit_to_div_mod, Nat.testBit_to_div_mod, hpow, ← Nat.div_div_eq_div_mul,
    ← Nat.div_div_eq_div_mul, h]

theorem count_call_append (xs ys : List PanelEvent) :
    count_call (xs ++ ys) = count_call xs + count_call ys := by
  induction xs with
  | nil => simp [count_call]
  | cons e es ih =>
    cases e <;> simp only [List.cons_append, List.append_eq, count_call, ih]
    omega

theorem count_release_append (xs ys : List PanelEvent) :
    count_release (xs ++ ys) = count_release xs + count_release ys := by
  induction xs with
  | nil => simp [count_release]
  | cons e es ih =>
    cases e <;> simp only [List.cons_append, List.append_eq, count_release, ih]
    omega

theorem count_free_append (xs ys : List PanelEvent) :
    count_free (xs ++ ys) = count_free xs + count_free ys := by
  induction xs with
  | nil => simp [count_free]
  | cons e es ih =>
    cases e <;> simp only [List.cons_append, List.append_eq, count_free, ih]
    omega

theorem count_tx_append (xs ys : List PanelEvent) :
    count_tx (xs ++ ys) = count_tx xs + count_tx ys := by
  induction xs with
  | nil => simp [count_tx]
  | cons e es ih =>
    cases e <;> simp only [List.cons_append, List.append_eq, count_tx, ih]
    omega

theorem count_dpi_append (xs ys : List PanelEvent) :
    count_dpi (xs ++ ys) = count_dpi xs + count_dpi ys := by
  induction xs with
  | nil => simp [count_dpi]
  | cons e es ih =>
    cases e <;> simp only [List.cons_append, List.append_eq, count_dpi, ih]
    omega

theorem count_gpio_append (xs ys : List PanelEvent) :
    count_gpio (xs ++ ys) = count_gpio xs + count_gpio ys := by
  induction xs with
  | nil => simp [count_gpio]
  | cons e es ih =>
    cases e <;> simp only [List.cons_append, List.append_eq, count_gpio, ih] <;> omega

/-- A run of delays holds no call and no transmission. -/
theorem count_delays (cmds : List esp_panel_lcd_vendor_init_cmd_t) :
    count_call (cmds.map (fun c => PanelEvent.vTaskDelay c.delay_ms)) = 0 ∧
      count_tx (cmds.map (fun c => PanelEvent.vTaskDelay c.delay_ms)) = 0 := by
  induction cmds with
  | nil => simp [count_call, count_tx]
  | cons c cs ih => simpa [count_call, count_tx] using ih

/-- The loop of `panel_nodsiconf_init` appends one delay per entry, in order, and keeps the
saved `init`. -/
theorem nodsiconf_init_loop_spec (cmds : List esp_panel_lcd_vendor_init_cmd_t)
    (st : nodsiconf_panel_t × List PanelEvent) :
    (nodsiconf_init_loop cmds st).2 =
        st.2 ++ cmds.map (fun c => PanelEvent.vTaskDelay c.delay_ms) ∧
      (nodsiconf_init_loop cmds st).1.init = st.1.init := by
  induction cmds generalizing st with
  | nil => simp [nodsiconf_init_loop]
  | cons c cs ih =>
    obtain ⟨h1, h2⟩ := ih (nodsiconf_init_step c st)
    have hs : (nodsiconf_init_step c st).2 = st.2 ++ [PanelEvent.vTaskDelay c.delay_ms] := rfl
    have hi : (nodsiconf_init_step c st).1.init = st.1.init := by
      unfold nodsiconf_init_step
      by_cases hb : c.data_bytes > 0 <;> by_cases hc : c.cmd = LCD_CMD_MADCTL <;> simp [hb, hc]
    refine ⟨?_, ?_⟩
    · rw [nodsiconf_init_loop, h1, hs]
      simp
    · rw [nodsiconf_init_loop, h2, hi]

/-- The loop of `panel_simple_init` appends the nonzero delays, in order, and keeps the saved
`init`. -/
theorem simple_init_loop_spec (cmds : List esp_panel_lcd_vendor_init_cmd_t)
    (st : simple_panel_t × List PanelEvent) :
    (simple_init_loop cmds st).2 =
        st.2 ++ (cmds.filter (fun c => decide (c.delay_ms > 0))).map
          (fun c => PanelEvent.vTaskDelay c.delay_ms) ∧
      (simple_init_loop cmds st).1.init = st.1.init := by
  induction cmds generalizing st with
  | nil => simp [simple_init_loop]
  | cons c cs ih =>
    obtain ⟨h1, h2⟩ := ih (simple_init_step c st)
    have hi : (simple_init_step c st).1.init = st.1.init := by
      unfold simple_init_step
      by_cases hb : c.data_bytes > 0 <;> by_cases hc : c.cmd = LCD_CMD_MADCTL <;> simp [hb, hc]
    refine ⟨?_, ?_⟩
    · rw [simple_init_loop, h1]
      by_cases hd : c.delay_ms > 0
      · simp [simple_init_step, hd]
      · simp [simple_init_step, hd]
    · rw [simple_init_loop, h2, hi]

/-- What `panel_nodsiconf_init` returns and leaves in the trace. -/
theorem nodsiconf_init_spec (env : PanelEnv) (nodsiconf : nodsiconf_panel_t)
    (tr : List PanelEvent) :
    (panel_nodsiconf_init env nodsiconf tr).1 =
        env.call
          (tr ++ (init_table nodsiconf.init_cmds nodsiconf.init_cmds_size).map
            (fun c => PanelEvent.vTaskDelay c.delay_ms)) nodsiconf.init ∧
      (panel_nodsiconf_init env nodsiconf tr).2.2 =
        tr ++ (init_table nodsiconf.init_cmds nodsiconf.init_cmds_size).map
            (fun c => PanelEvent.vTaskDelay c.delay_ms) ++
          [PanelEvent.call nodsiconf.init (panel_nodsiconf_init env nodsiconf tr).1] := by
  obtain ⟨h1, h2⟩ := nodsiconf_init_loop_spec
    (init_table nodsiconf.init_cmds nodsiconf.init_cmds_size) (nodsiconf, tr)
  simp only [panel_nodsiconf_init, h1, h2]
  split <;> simp_all

/-- What `panel_simple_init` returns and leaves in the trace. -/
theorem simple_init_spec (env : PanelEnv) (simple : simple_panel_t)
    (tr : List PanelEvent) :
    (panel_simple_init env simple tr).1 =
        env.call
          (tr ++ ((init_table simple.init_cmds simple.init_cmds_size).filter
            (fun c => decide (c.delay_ms > 0))).map
            (fun c => PanelEvent.vTaskDelay c.delay_ms)) simple.init ∧
      (panel_simple_init env simple tr).2.2 =
        tr ++ ((init_table simple.init_cmds simple.init_cmds_size).filter
            (fun c => decide (c.delay_ms > 0))).map
            (fun c => PanelEvent.vTaskDelay c.delay_ms) ++
          [PanelEvent.call simple.init (panel_simple_init env simple tr).1] := by
  obtain ⟨h1, h2⟩ := simple_init_loop_spec
    (init_table simple.init_cmds simple.init_cmds_size) (simple, tr)
  simp only [panel_simple_init, h1, h2]
  split <;> simp_all

/-- A value that fits in eight bits is unchanged by the cast to `uint8_t`. -/
theorem to_uint8_of_fits (v : Int) (h0 : 0 ≤ v) (h : v ≤ 255) : (to_uint8 v : Int) = v := by
  unfold to_uint8
  omega

/-- For a nonnegative full scale without overflow the computed value does not decrease with
`percent`. -/
theorem brightness_value_mono (p q max_brightness : Int) (h0 : 0 ≤ p) (hpq : p ≤ q)
    (hq100 : q ≤ 100) (hm0 : 0 ≤ max_brightness) (hm : max_brightness ≤ 21474836) :
    brightness_value p max_brightness ≤ brightness_value q max_brightness := by
  rw [brightness_value_no_overflow p max_brightness h0 (le_trans hpq hq100) (by omega) hm,
    brightness_value_no_overflow q max_brightness (le_trans h0 hpq) hq100 (by omega) hm]
  have hp : 0 ≤ p * max_brightness := Int.mul_nonneg h0 hm0
  have hq : 0 ≤ q * max_brightness := Int.mul_nonneg (le_trans h0 hpq) hm0
  rw [Int.tdiv_eq_ediv hp (by decide), Int.tdiv_eq_ediv hq (by decide)]
  exact Int.ediv_le_ediv (by decide) (Int.mul_le_mul_of_nonneg_right hpq hm0)

/-- `esp_lcd_new_panel_nodsiconf` with an argument that fails the checks. -/
theorem nodsiconf_create_invalid (env : PanelEnv) (fns : panel_fns) (io : Option Nat)
    (panel_dev_config : Option esp_lcd_panel_dev_config_t)
    (ret_panel : Option (Option esp_lcd_panel_t)) (tr : List PanelEvent)
    (h : new_panel_args_valid io panel_dev_config ret_panel = false) :
    esp_lcd_new_panel_nodsiconf env fns io panel_dev_config ret_panel tr =
      { ret := ESP_ERR_INVALID_ARG, ret_panel := ret_panel.join, state := none, trace := tr } := by
  cases io with
  | none => simp [esp_lcd_new_panel_nodsiconf]
  | some io_handle =>
    cases panel_dev_config with
    | none => simp [esp_lcd_new_panel_nodsiconf]
    | some cfg =>
      cases ret_panel with
      | none => simp [esp_lcd_new_panel_nodsiconf]
      | some slot =>
        cases hv : cfg.vendor_config with
        | none => simp [esp_lcd_new_panel_nodsiconf, hv]
        | some vendor_config =>
          cases hdpi : vendor_config.mipi_config.dpi_config with
          | none => simp [esp_lcd_new_panel_nodsiconf, hv, hdpi]
          | some dpi_config =>
            cases hbus : vendor_config.mipi_config.dsi_bus with
            | none => simp [esp_lcd_new_panel_nodsiconf, hv, hdpi, hbus]
            | some dsi_bus => simp [new_panel_args_valid, hv, hdpi, hbus] at h

/-- `esp_lcd_new_panel_nodsiconf` when `calloc` returns null. -/
theorem nodsiconf_create_no_mem (env : PanelEnv) (fns : panel_fns) (io_handle : Nat)
    (cfg : esp_lcd_panel_dev_config_t) (vendor_config : esp_panel_lcd_vendor_config_t)
    (dpi_config dsi_bus : Nat) (slot : Option esp_lcd_panel_t) (tr : List PanelEvent)
    (hv : cfg.vendor_config = some vendor_config)
    (hdpi : vendor_config.mipi_config.dpi_config = some dpi_config)
    (hbus : vendor_config.mipi_config.dsi_bus = some dsi_bus)
    (halloc : env.calloc tr = none) :
    esp_lcd_new_panel_nodsiconf env fns (some io_handle) (some cfg) (some slot) tr =
      { ret := ESP_ERR_NO_MEM, ret_panel := slot, state := none,
        trace := tr ++ [PanelEvent.calloc none] } := by
  simp [esp_lcd_new_panel_nodsiconf, hv, hdpi, hbus, halloc]

/-- `esp_lcd_new_panel_nodsiconf` when the configuration of the reset GPIO fails. -/
theorem nodsiconf_create_gpio_fails (env : PanelEnv) (fns : panel_fns) (io_handle : Nat)
    (cfg : esp_lcd_panel_dev_config_t) (vendor_config : esp_panel_lcd_vendor_config_t)
    (dpi_config dsi_bus ptr : Nat) (slot : Option esp_lcd_panel_t) (tr : List PanelEvent)
    (hv : cfg.vendor_config = some vendor_config)
    (hdpi : vendor_config.mipi_config.dpi_config = some dpi_config)
    (hbus : vendor_config.mipi_config.dsi_bus = some dsi_bus)
    (halloc : env.calloc tr = some ptr)
    (hpin : cfg.reset_gpio_num ≥ 0)
    (hfail : env.gpio_config (tr ++ [PanelEvent.calloc (some ptr)])
      (reset_pin_mask cfg.reset_gpio_num) ≠ ESP_OK) :
    esp_lcd_new_panel_nodsiconf env fns (some io_handle) (some cfg) (some slot) tr =
      { ret := env.gpio_config (tr ++ [PanelEvent.calloc (some ptr)])
          (reset_pin_mask cfg.reset_gpio_num),
        ret_panel := slot, state := none,
        trace := tr ++ [PanelEvent.calloc (some ptr),
          PanelEvent.gpio_config (reset_pin_mask cfg.reset_gpio_num)
            (env.gpio_config (tr ++ [PanelEvent.calloc (some ptr)])
              (reset_pin_mask cfg.reset_gpio_num)),
          PanelEvent.gpio_reset_pin cfg.reset_gpio_num, PanelEvent.free (some ptr)] } := by
  simp [esp_lcd_new_panel_nodsiconf, hv, hdpi, hbus, halloc, hpin, hfail, new_panel_err]

/-- `esp_lcd_new_panel_nodsiconf` with a colour order or pixel width outside the recognised set. -/
theorem nodsiconf_create_unsupported (env : PanelEnv) (fns : panel_fns) (io_handle : Nat)
    (cfg : esp_lcd_panel_dev_config_t) (vendor_config : esp_panel_lcd_vendor_config_t)
    (dpi_config dsi_bus ptr : Nat) (slot : Option esp_lcd_panel_t) (tr : List PanelEvent)
    (hv : cfg.vendor_config = some vendor_config)
    (hdpi : vendor_config.mipi_config.dpi_config = some dpi_config)
    (hbus : vendor_config.mipi_config.dsi_bus = some dsi_bus)
    (halloc : env.calloc tr = some ptr)
    (hgpio : cfg.reset_gpio_num ≥ 0 →
      env.gpio_config (tr ++ [PanelEvent.calloc (some ptr)])
        (reset_pin_mask cfg.reset_gpio_num) = ESP_OK)
    (hun : ¬ (cfg.rgb_ele_order = LCD_RGB_ELEMENT_ORDER_RGB ∨
        cfg.rgb_ele_order = LCD_RGB_ELEMENT_ORDER_BGR) ∨
      ¬ (cfg.bits_per_pixel = 16 ∨ cfg.bits_per_pixel = 18 ∨ cfg.bits_per_pixel = 24)) :
    esp_lcd_new_panel_nodsiconf env fns (some io_handle) (some cfg) (some slot) tr =
      { ret := ESP_ERR_NOT_SUPPORTED,
        ret_panel := slot, state := none,
        trace := tr ++ [PanelEvent.calloc (some ptr)] ++
          (if cfg.reset_gpio_num ≥ 0 then
            [PanelEvent.gpio_config (reset_pin_mask cfg.reset_gpio_num) ESP_OK,
             PanelEvent.gpio_reset_pin cfg.reset_gpio_num] else []) ++
          [PanelEvent.free (some ptr)] } := by
  by_cases hpin : cfg.reset_gpio_num ≥ 0
  · have hg := hgpio hpin
    rcases hun with h | h
    · simp [esp_lcd_new_panel_nodsiconf, hv, hdpi, hbus, halloc, hpin, hg, new_panel_err, h]
    · by_cases hc : (cfg.rgb_ele_order = LCD_RGB_ELEMENT_ORDER_RGB ∨
        cfg.rgb_ele_order = LCD_RGB_ELEMENT_ORDER_BGR)
      · simp [esp_lcd_new_panel_nodsiconf, hv, hdpi, hbus, halloc, hpin, hg, new_panel_err, h, hc]
      · simp [esp_lcd_new_panel_nodsiconf, hv, hdpi, hbus, halloc, hpin, hg, new_panel_err, hc]
  · rcases hun with h | h
    · simp [esp_lcd_new_panel_nodsiconf, hv, hdpi, hbus, halloc, hpin, new_panel_err, h]
    · by_cases hc : (cfg.rgb_ele_order = LCD_RGB_ELEMENT_ORDER_RGB ∨
        cfg.rgb_ele_order = LCD_RGB_ELEMENT_ORDER_BGR)
      · simp [esp_lcd_new_panel_nodsiconf, hv, hdpi, hbus, halloc, hpin, new_panel_err, h, hc]
      · simp [esp_lcd_new_panel_nodsiconf, hv, hdpi, hbus, halloc, hpin, new_panel_err, hc]

/-- `esp_lcd_new_panel_nodsiconf` when `esp_lcd_new_panel_dpi` fails. -/
theorem nodsiconf_create_dpi_fails (env : PanelEnv) (fns : panel_fns) (io_handle : Nat)
    (cfg : esp_lcd_panel_dev_config_t) (vendor_config : esp_panel_lcd_vendor_config_t)
    (dpi_config dsi_bus ptr : Nat) (slot : Option esp_lcd_panel_t) (tr : List PanelEvent)
    (code : esp_err_t) (hcode : code ≠ ESP_OK) (slot_after : Option esp_lcd_panel_t)
    (hv : cfg.vendor_config = some vendor_config)
    (hdpi : vendor_config.mipi_config.dpi_config = some dpi_config)
    (hbus : vendor_config.mipi_config.dsi_bus = some dsi_bus)
    (halloc : env.calloc tr = some ptr)
    (hgpio : cfg.reset_gpio_num ≥ 0 →
      env.gpio_config (tr ++ [PanelEvent.calloc (some ptr)])
        (reset_pin_mask cfg.reset_gpio_num) = ESP_OK)
    (hc : cfg.rgb_ele_order = LCD_RGB_ELEMENT_ORDER_RGB ∨
      cfg.rgb_ele_order = LCD_RGB_ELEMENT_ORDER_BGR)
    (hb : cfg.bits_per_pixel = 16 ∨ cfg.bits_per_pixel = 18 ∨ cfg.bits_per_pixel = 24)
    (hres : env.esp_lcd_new_panel_dpi
      (tr ++ [PanelEvent.calloc (some ptr)] ++
        (if cfg.reset_gpio_num ≥ 0 then
          [PanelEvent.gpio_config (reset_pin_mask cfg.reset_gpio_num) ESP_OK] else []))
      dsi_bus dpi_config slot = DpiResult.failed code hcode slot_after) :
    esp_lcd_new_panel_nodsiconf env fns (some io_handle) (some cfg) (some slot) tr =
      { ret := code, ret_panel := slot_after, state := none,
        trace := tr ++ [PanelEvent.calloc (some ptr)] ++
          (if cfg.reset_gpio_num ≥ 0 then
            [PanelEvent.gpio_config (reset_pin_mask cfg.reset_gpio_num) ESP_OK] else []) ++
          [PanelEvent.esp_lcd_new_panel_dpi dsi_bus dpi_config code] ++
          (if cfg.reset_gpio_num ≥ 0 then
            [PanelEvent.gpio_reset_pin cfg.reset_gpio_num] else []) ++
          [PanelEvent.free (some ptr)] } := by
  by_cases hpin : cfg.reset_gpio_num ≥ 0
  · have hg := hgpio hpin
    simp only [hpin, if_true, List.append_assoc, List.singleton_append] at hres
    simp [esp_lcd_new_panel_nodsiconf, hv, hdpi, hbus, halloc, hpin, hg, hc, hb, hres, new_panel_err]
  · simp only [hpin, if_false, List.append_nil] at hres
    simp [esp_lcd_new_panel_nodsiconf, hv, hdpi, hbus, halloc, hpin, hc, hb, hres, new_panel_err]

/-- `esp_lcd_new_panel_nodsiconf` when every step succeeds. -/
theorem nodsiconf_create_ok (env : PanelEnv) (fns : panel_fns) (io_handle : Nat)
    (cfg : esp_lcd_panel_dev_config_t) (vendor_config : esp_panel_lcd_vendor_config_t)
    (dpi_config dsi_bus ptr : Nat) (slot : Option esp_lcd_panel_t) (tr : List PanelEvent)
    (panel : esp_lcd_panel_t)
    (hv : cfg.vendor_config = some vendor_config)
    (hdpi : vendor_config.mipi_config.dpi_config = some dpi_config)
    (hbus : vendor_config.mipi_config.dsi_bus = some dsi_bus)
    (halloc : env.calloc tr = some ptr)
    (hgpio : cfg.reset_gpio_num ≥ 0 →
      env.gpio_config (tr ++ [PanelEvent.calloc (some ptr)])
        (reset_pin_mask cfg.reset_gpio_num) = ESP_OK)
    (hc : cfg.rgb_ele_order = LCD_RGB_ELEMENT_ORDER_RGB ∨
      cfg.rgb_ele_order = LCD_RGB_ELEMENT_ORDER_BGR)
    (hb : cfg.bits_per_pixel = 16 ∨ cfg.bits_per_pixel = 18 ∨ cfg.bits_per_pixel = 24)
    (hres : env.esp_lcd_new_panel_dpi
      (tr ++ [PanelEvent.calloc (some ptr)] ++
        (if cfg.reset_gpio_num ≥ 0 then
          [PanelEvent.gpio_config (reset_pin_mask cfg.reset_gpio_num) ESP_OK] else []))
      dsi_bus dpi_config slot = DpiResult.created panel) :
    esp_lcd_new_panel_nodsiconf env fns (some io_handle) (some cfg) (some slot) tr =
      { ret := ESP_OK,
        ret_panel := some
          { panel with
            del := fns.del, init := fns.init, reset := fns.reset,
            mirror := fns.mirror, invert_color := fns.invert_color,
            disp_on_off := fns.disp_on_off, disp_sleep := fns.disp_sleep,
            user_data := some ptr },
        state := some
          { io := some io_handle,
            reset_gpio_num := cfg.reset_gpio_num,
            madctl_val := if cfg.rgb_ele_order = LCD_RGB_ELEMENT_ORDER_RGB then 0 else 0x08,
            colmod_val :=
              if cfg.bits_per_pixel = 16 then 0x55
              else if cfg.bits_per_pixel = 18 then 0x66 else 0x77,
            init_cmds := vendor_config.init_cmds,
            init_cmds_size := vendor_config.init_cmds_size % 2 ^ 16,
            lane_num := vendor_config.mipi_config.lane_num % 2 ^ 8,
            reset_level := cfg.reset_active_high % 2,
            del := panel.del,
            init := panel.init },
        trace := tr ++ [PanelEvent.calloc (some ptr)] ++
          (if cfg.reset_gpio_num ≥ 0 then
            [PanelEvent.gpio_config (reset_pin_mask cfg.reset_gpio_num) ESP_OK] else []) ++
          [PanelEvent.esp_lcd_new_panel_dpi dsi_bus dpi_config ESP_OK] } := by
  have h8 : u8_or_assign 0 LCD_CMD_BGR_BIT = 8 := by decide
  by_cases hpin : cfg.reset_gpio_num ≥ 0
  · have hg := hgpio hpin
    simp only [hpin, if_true, List.append_assoc, List.singleton_append] at hres
    simp [esp_lcd_new_panel_nodsiconf, hv, hdpi, hbus, halloc, hpin, hg, hc, hb, hres, h8]
  · simp only [hpin, if_false, List.append_nil] at hres
    simp [esp_lcd_new_panel_nodsiconf, hv, hdpi, hbus, halloc, hpin, hc, hb, hres, h8]

/-- A successful `esp_lcd_new_panel_nodsiconf` went through every step. -/
theorem nodsiconf_create_ok_inv (env : PanelEnv) (fns : panel_fns) (io_handle : Nat)
    (cfg : esp_lcd_panel_dev_config_t) (vendor_config : esp_panel_lcd_vendor_config_t)
    (dpi_config dsi_bus : Nat) (slot : Option esp_lcd_panel_t) (tr : List PanelEvent)
    (hv : cfg.vendor_config = some vendor_config)
    (hdpi : vendor_config.mipi_config.dpi_config = some dpi_config)
    (hbus : vendor_config.mipi_config.dsi_bus = some dsi_bus)
    (hret : (esp_lcd_new_panel_nodsiconf env fns (some io_handle) (some cfg) (some slot) tr).ret =
      ESP_OK) :
    ∃ ptr panel,
      env.calloc tr = some ptr ∧
      (cfg.reset_gpio_num ≥ 0 →
        env.gpio_config (tr ++ [PanelEvent.calloc (some ptr)])
          (reset_pin_mask cfg.reset_gpio_num) = ESP_OK) ∧
      (cfg.rgb_ele_order = LCD_RGB_ELEMENT_ORDER_RGB ∨
        cfg.rgb_ele_order = LCD_RGB_ELEMENT_ORDER_BGR) ∧
      (cfg.bits_per_pixel = 16 ∨ cfg.bits_per_pixel = 18 ∨ cfg.bits_per_pixel = 24) ∧
      env.esp_lcd_new_panel_dpi
        (tr ++ [PanelEvent.calloc (some ptr)] ++
        (if cfg.reset_gpio_num ≥ 0 then
          [PanelEvent.gpio_config (reset_pin_mask cfg.reset_gpio_num) ESP_OK] else []))
        dsi_bus dpi_config slot = DpiResult.created panel := by
  cases halloc : env.calloc tr with
  | none =>
    rw [nodsiconf_create_no_mem env fns io_handle cfg vendor_config dpi_config dsi_bus slot tr
      hv hdpi hbus halloc] at hret
    simp [ESP_ERR_NO_MEM, ESP_OK] at hret
  | some ptr =>
    have hgpio : cfg.reset_gpio_num ≥ 0 →
        env.gpio_config (tr ++ [PanelEvent.calloc (some ptr)])
          (reset_pin_mask cfg.reset_gpio_num) = ESP_OK := by
      intro hpin
      by_contra hfail
      rw [nodsiconf_create_gpio_fails env fns io_handle cfg vendor_config dpi_config dsi_bus ptr
        slot tr hv hdpi hbus halloc hpin hfail] at hret
      exact hfail hret
    by_cases hc : cfg.rgb_ele_order = LCD_RGB_ELEMENT_ORDER_RGB ∨
        cfg.rgb_ele_order = LCD_RGB_ELEMENT_ORDER_BGR
    · by_cases hb : cfg.bits_per_pixel = 16 ∨ cfg.bits_per_pixel = 18 ∨
          cfg.bits_per_pixel = 24
      · cases hres : env.esp_lcd_new_panel_dpi
            (tr ++ [PanelEvent.calloc (some ptr)] ++
        (if cfg.reset_gpio_num ≥ 0 then
          [PanelEvent.gpio_config (reset_pin_mask cfg.reset_gpio_num) ESP_OK] else []))
            dsi_bus dpi_config slot with
        | created panel => exact ⟨ptr, panel, rfl, hgpio, hc, hb, hres⟩
        | failed code hcode slot_after =>
          rw [nodsiconf_create_dpi_fails env fns io_handle cfg vendor_config dpi_config dsi_bus ptr
            slot tr code hcode slot_after hv hdpi hbus halloc hgpio hc hb hres] at hret
          exact absurd hret hcode
      · rw [nodsiconf_create_unsupported env fns io_handle cfg vendor_config dpi_config dsi_bus ptr
          slot tr hv hdpi hbus halloc hgpio (Or.inr hb)] at hret
        simp [ESP_ERR_NOT_SUPPORTED, ESP_OK] at hret
    · rw [nodsiconf_create_unsupported env fns io_handle cfg vendor_config dpi_config dsi_bus ptr
        slot tr hv hdpi hbus halloc hgpio (Or.inl hc)] at hret
      simp [ESP_ERR_NOT_SUPPORTED, ESP_OK] at hret

/-- `esp_lcd_new_panel_simple` with an argument that fails the checks. -/
theorem simple_create_invalid (env : PanelEnv) (fns : panel_fns) (io : Option Nat)
    (panel_dev_config : Option esp_lcd_panel_dev_config_t)
    (ret_panel : Option (Option esp_lcd_panel_t)) (tr : List PanelEvent)
    (h : new_panel_args_valid io panel_dev_config ret_panel = false) :
    esp_lcd_new_panel_simple env fns io panel_dev_config ret_panel tr =
      { ret := ESP_ERR_INVALID_ARG, ret_panel := ret_panel.join, state := none, trace := tr } := by
  cases io with
  | none => simp [esp_lcd_new_panel_simple]
  | some io_handle =>
    cases panel_dev_config with
    | none => simp [esp_lcd_new_panel_simple]
    | some cfg =>
      cases ret_panel with
      | none => simp [esp_lcd_new_panel_simple]
      | some slot =>
        cases hv : cfg.vendor_config with
        | none => simp [esp_lcd_new_panel_simple, hv]
        | some vendor_config =>
          cases hdpi : vendor_config.mipi_config.dpi_config with
          | none => simp [esp_lcd_new_panel_simple, hv, hdpi]
          | some dpi_config =>
            cases hbus : vendor_config.mipi_config.dsi_bus with
            | none => simp [esp_lcd_new_panel_simple, hv, hdpi, hbus]
            | some dsi_bus => simp [new_panel_args_valid, hv, hdpi, hbus] at h

/-- `esp_lcd_new_panel_simple` when `calloc` returns null. -/
theorem simple_create_no_mem (env : PanelEnv) (fns : panel_fns) (io_handle : Nat)
    (cfg : esp_lcd_panel_dev_config_t) (vendor_config : esp_panel_lcd_vendor_config_t)
    (dpi_config dsi_bus : Nat) (slot : Option esp_lcd_panel_t) (tr : List PanelEvent)
    (hv : cfg.vendor_config = some vendor_config)
    (hdpi : vendor_config.mipi_config.dpi_config = some dpi_config)
    (hbus : vendor_config.mipi_config.dsi_bus = some dsi_bus)
    (halloc : env.calloc tr = none) :
    esp_lcd_new_panel_simple env fns (some io_handle) (some cfg) (some slot) tr =
      { ret := ESP_ERR_NO_MEM, ret_panel := slot, state := none,
        trace := tr ++ [PanelEvent.calloc none] } := by
  simp [esp_lcd_new_panel_simple, hv, hdpi, hbus, halloc]

/-- `esp_lcd_new_panel_simple` when the configuration of the reset GPIO fails. -/
theorem simple_create_gpio_fails (env : PanelEnv) (fns : panel_fns) (io_handle : Nat)
    (cfg : esp_lcd_panel_dev_config_t) (vendor_config : esp_panel_lcd_vendor_config_t)
    (dpi_config dsi_bus ptr : Nat) (slot : Option esp_lcd_panel_t) (tr : List PanelEvent)
    (hv : cfg.vendor_config = some vendor_config)
    (hdpi : vendor_config.mipi_config.dpi_config = some dpi_config)
    (hbus : vendor_config.mipi_config.dsi_bus = some dsi_bus)
    (halloc : env.calloc tr = some ptr)
    (hpin : cfg.reset_gpio_num ≥ 0)
    (hfail : env.gpio_config (tr ++ [PanelEvent.calloc (some ptr)])
      (reset_pin_mask cfg.reset_gpio_num) ≠ ESP_OK) :
    esp_lcd_new_panel_simple env fns (some io_handle) (some cfg) (some slot) tr =
      { ret := env.gpio_config (tr ++ [PanelEvent.calloc (some ptr)])
          (reset_pin_mask cfg.reset_gpio_num),
        ret_panel := slot, state := none,
        trace := tr ++ [PanelEvent.calloc (some ptr),
          PanelEvent.gpio_config (reset_pin_mask cfg.reset_gpio_num)
            (env.gpio_config (tr ++ [PanelEvent.calloc (some ptr)])
              (reset_pin_mask cfg.reset_gpio_num)),
          PanelEvent.gpio_reset_pin cfg.reset_gpio_num, PanelEvent.free (some ptr)] } := by
  simp [esp_lcd_new_panel_simple, hv, hdpi, hbus, halloc, hpin, hfail, new_panel_err]

/-- `esp_lcd_new_panel_simple` with a colour order or pixel width outside the recognised set. -/
theorem simple_create_unsupported (env : PanelEnv) (fns : panel_fns) (io_handle : Nat)
    (cfg : esp_lcd_panel_dev_config_t) (vendor_config : esp_panel_lcd_vendor_config_t)
    (dpi_config dsi_bus ptr : Nat) (slot : Option esp_lcd_panel_t) (tr : List PanelEvent)
    (hv : cfg.vendor_config = some vendor_config)
    (hdpi : vendor_config.mipi_config.dpi_config = some dpi_config)
    (hbus : vendor_config.mipi_config.dsi_bus = some dsi_bus)
    (halloc : env.calloc tr = some ptr)
    (hgpio : cfg.reset_gpio_num ≥ 0 →
      env.gpio_config (tr ++ [PanelEvent.calloc (some ptr)])
        (reset_pin_mask cfg.reset_gpio_num) = ESP_OK)
    (hun : ¬ (cfg.rgb_ele_order = LCD_RGB_ELEMENT_ORDER_RGB ∨
        cfg.rgb_ele_order = LCD_RGB_ELEMENT_ORDER_BGR) ∨
      ¬ (cfg.bits_per_pixel = 16 ∨ cfg.bits_per_pixel = 18 ∨ cfg.bits_per_pixel = 24)) :
    esp_lcd_new_panel_simple env fns (some io_handle) (some cfg) (some slot) tr =
      { ret := ESP_ERR_NOT_SUPPORTED,
        ret_panel := slot, state := none,
        trace := tr ++ [PanelEvent.calloc (some ptr)] ++
          (if cfg.reset_gpio_num ≥ 0 then
            [PanelEvent.gpio_config (reset_pin_mask cfg.reset_gpio_num) ESP_OK,
             PanelEvent.gpio_reset_pin cfg.reset_gpio_num] else []) ++
          [PanelEvent.free (some ptr)] } := by
  by_cases hpin : cfg.reset_gpio_num ≥ 0
  · have hg := hgpio hpin
    rcases hun with h | h
    · simp [esp_lcd_new_panel_simple, hv, hdpi, hbus, halloc, hpin, hg, new_panel_err, h]
    · by_cases hc : (cfg.rgb_ele_order = LCD_RGB_ELEMENT_ORDER_RGB ∨
        cfg.rgb_ele_order = LCD_RGB_ELEMENT_ORDER_BGR)
      · simp [esp_lcd_new_panel_simple, hv, hdpi, hbus, halloc, hpin, hg, new_panel_err, h, hc]
      · simp [esp_lcd_new_panel_simple, hv, hdpi, hbus, halloc, hpin, hg, new_panel_err, hc]
  · rcases hun with h | h
    · simp [esp_lcd_new_panel_simple, hv, hdpi, hbus, halloc, hpin, new_panel_err, h]
    · by_cases hc : (cfg.rgb_ele_order = LCD_RGB_ELEMENT_ORDER_RGB ∨
        cfg.rgb_ele_order = LCD_RGB_ELEMENT_ORDER_BGR)
      · simp [esp_lcd_new_panel_simple, hv, hdpi, hbus, halloc, hpin, new_panel_err, h, hc]
      · simp [esp_lcd_new_panel_simple, hv, hdpi, hbus, halloc, hpin, new_panel_err, hc]

/-- `esp_lcd_new_panel_simple` when `esp_lcd_new_panel_dpi` fails. -/
theorem simple_create_dpi_fails (env : PanelEnv) (fns : panel_fns) (io_handle : Nat)
    (cfg : esp_lcd_panel_dev_config_t) (vendor_config : esp_panel_lcd_vendor_config_t)
    (dpi_config dsi_bus ptr : Nat) (slot : Option esp_lcd_panel_t) (tr : List PanelEvent)
    (code : esp_err_t) (hcode : code ≠ ESP_OK) (slot_after : Option esp_lcd_panel_t)
    (hv : cfg.vendor_config = some vendor_config)
    (hdpi : vendor_config.mipi_config.dpi_config = some dpi_config)
    (hbus : vendor_config.mipi_config.dsi_bus = some dsi_bus)
    (halloc : env.calloc tr = some ptr)
    (hgpio : cfg.reset_gpio_num ≥ 0 →
      env.gpio_config (tr ++ [PanelEvent.calloc (some ptr)])
        (reset_pin_mask cfg.reset_gpio_num) = ESP_OK)
    (hc : cfg.rgb_ele_order = LCD_RGB_ELEMENT_ORDER_RGB ∨
      cfg.rgb_ele_order = LCD_RGB_ELEMENT_ORDER_BGR)
    (hb : cfg.bits_per_pixel = 16 ∨ cfg.bits_per_pixel = 18 ∨ cfg.bits_per_pixel = 24)
    (hres : env.esp_lcd_new_panel_dpi
      (tr ++ [PanelEvent.calloc (some ptr)] ++
        (if cfg.reset_gpio_num ≥ 0 then
          [PanelEvent.gpio_config (reset_pin_mask cfg.reset_gpio_num) ESP_OK] else []))
      dsi_bus dpi_config slot = DpiResult.failed code hcode slot_after) :
    esp_lcd_new_panel_simple env fns (some io_handle) (some cfg) (some slot) tr =
      { ret := code, ret_panel := slot_after, state := none,
        trace := tr ++ [PanelEvent.calloc (some ptr)] ++
          (if cfg.reset_gpio_num ≥ 0 then
            [PanelEvent.gpio_config (reset_pin_mask cfg.reset_gpio_num) ESP_OK] else []) ++
          [PanelEvent.esp_lcd_new_panel_dpi dsi_bus dpi_config code] ++
          (if cfg.reset_gpio_num ≥ 0 then
            [PanelEvent.gpio_reset_pin cfg.reset_gpio_num] else []) ++
          [PanelEvent.free (some ptr)] } := by
  by_cases hpin : cfg.reset_gpio_num ≥ 0
  · have hg := hgpio hpin
    simp only [hpin, if_true, List.append_assoc, List.singleton_append] at hres
    simp [esp_lcd_new_panel_simple, hv, hdpi, hbus, halloc, hpin, hg, hc, hb, hres, new_panel_err]
  · simp only [hpin, if_false, List.append_nil] at hres
    simp [esp_lcd_new_panel_simple, hv, hdpi, hbus, halloc, hpin, hc, hb, hres, new_panel_err]

/-- `esp_lcd_new_panel_simple` when every step succeeds. -/
theorem simple_create_ok (env : PanelEnv) (fns : panel_fns) (io_handle : Nat)
    (cfg : esp_lcd_panel_dev_config_t) (vendor_config : esp_panel_lcd_vendor_config_t)
    (dpi_config dsi_bus ptr : Nat) (slot : Option esp_lcd_panel_t) (tr : List PanelEvent)
    (panel : esp_lcd_panel_t)
    (hv : cfg.vendor_config = some vendor_config)
    (hdpi : vendor_config.mipi_config.dpi_config = some dpi_config)
    (hbus : vendor_config.mipi_config.dsi_bus = some dsi_bus)
    (halloc : env.calloc tr = some ptr)
    (hgpio : cfg.reset_gpio_num ≥ 0 →
      env.gpio_config (tr ++ [PanelEvent.calloc (some ptr)])
        (reset_pin_mask cfg.reset_gpio_num) = ESP_OK)
    (hc : cfg.rgb_ele_order = LCD_RGB_ELEMENT_ORDER_RGB ∨
      cfg.rgb_ele_order = LCD_RGB_ELEMENT_ORDER_BGR)
    (hb : cfg.bits_per_pixel = 16 ∨ cfg.bits_per_pixel = 18 ∨ cfg.bits_per_pixel = 24)
    (hres : env.esp_lcd_new_panel_dpi
      (tr ++ [PanelEvent.calloc (some ptr)] ++
        (if cfg.reset_gpio_num ≥ 0 then
          [PanelEvent.gpio_config (reset_pin_mask cfg.reset_gpio_num) ESP_OK] else []))
      dsi_bus dpi_config slot = DpiResult.created panel) :
    esp_lcd_new_panel_simple env fns (some io_handle) (some cfg) (some slot) tr =
      { ret := ESP_OK,
        ret_panel := some
          { panel with
            del := fns.del, init := fns.init, reset := fns.reset,
            mirror := fns.mirror, invert_color := fns.invert_color,
            disp_on_off := fns.disp_on_off, disp_sleep := fns.disp_sleep,
            user_data := some ptr },
        state := some
          { io := some io_handle,
            reset_gpio_num := cfg.reset_gpio_num,
            madctl_val := if cfg.rgb_ele_order = LCD_RGB_ELEMENT_ORDER_RGB then 0 else 0x08,
            colmod_val :=
              if cfg.bits_per_pixel = 16 then 0x55
              else if cfg.bits_per_pixel = 18 then 0x66 else 0x77,
            init_cmds := vendor_config.init_cmds,
            init_cmds_size := vendor_config.init_cmds_size % 2 ^ 16,
            lane_num := vendor_config.mipi_config.lane_num % 2 ^ 8,
            reset_level := cfg.reset_active_high % 2,
            del := panel.del,
            init := panel.init },
        trace := tr ++ [PanelEvent.calloc (some ptr)] ++
          (if cfg.reset_gpio_num ≥ 0 then
            [PanelEvent.gpio_config (reset_pin_mask cfg.reset_gpio_num) ESP_OK] else []) ++
          [PanelEvent.esp_lcd_new_panel_dpi dsi_bus dpi_config ESP_OK] } := by
  have h8 : u8_or_assign 0 LCD_CMD_BGR_BIT = 8 := by decide
  by_cases hpin : cfg.reset_gpio_num ≥ 0
  · have hg := hgpio hpin
    simp only [hpin, if_true, List.append_assoc, List.singleton_append] at hres
    simp [esp_lcd_new_panel_simple, hv, hdpi, hbus, halloc, hpin, hg, hc, hb, hres, h8]
  · simp only [hpin, if_false, List.append_nil] at hres
    simp [esp_lcd_new_panel_simple, hv, hdpi, hbus, halloc, hpin, hc, hb, hres, h8]

/-- A successful `esp_lcd_new_panel_simple` went through every step. -/
theorem simple_create_ok_inv (env : PanelEnv) (fns : panel_fns) (io_handle : Nat)
    (cfg : esp_lcd_panel_dev_config_t) (vendor_config : esp_panel_lcd_vendor_config_t)
    (dpi_config dsi_bus : Nat) (slot : Option esp_lcd_panel_t) (tr : List PanelEvent)
    (hv : cfg.vendor_config = some vendor_config)
    (hdpi : vendor_config.mipi_config.dpi_config = some dpi_config)
    (hbus : vendor_config.mipi_config.dsi_bus = some dsi_bus)
    (hret : (esp_lcd_new_panel_simple env fns (some io_handle) (some cfg) (some slot) tr).ret =
      ESP_OK) :
    ∃ ptr panel,
      env.calloc tr = some ptr ∧
      (cfg.reset_gpio_num ≥ 0 →
        env.gpio_config (tr ++ [PanelEvent.calloc (some ptr)])
          (reset_pin_mask cfg.reset_gpio_num) = ESP_OK) ∧
      (cfg.rgb_ele_order = LCD_RGB_ELEMENT_ORDER_RGB ∨
        cfg.rgb_ele_order = LCD_RGB_ELEMENT_ORDER_BGR) ∧
      (cfg.bits_per_pixel = 16 ∨ cfg.bits_per_pixel = 18 ∨ cfg.bits_per_pixel = 24) ∧
      env.esp_lcd_new_panel_dpi
        (tr ++ [PanelEvent.calloc (some ptr)] ++
        (if cfg.reset_gpio_num ≥ 0 then
          [PanelEvent.gpio_config (reset_pin_mask cfg.reset_gpio_num) ESP_OK] else []))
        dsi_bus dpi_config slot = DpiResult.created panel := by
  cases halloc : env.calloc tr with
  | none =>
    rw [simple_create_no_mem env fns io_handle cfg vendor_config dpi_config dsi_bus slot tr
      hv hdpi hbus halloc] at hret
    simp [ESP_ERR_NO_MEM, ESP_OK] at hret
  | some ptr =>
    have hgpio : cfg.reset_gpio_num ≥ 0 →
        env.gpio_config (tr ++ [PanelEvent.calloc (some ptr)])
          (reset_pin_mask cfg.reset_gpio_num) = ESP_OK := by
      intro hpin
      by_contra hfail
      rw [simple_create_gpio_fails env fns io_handle cfg vendor_config dpi_config dsi_bus ptr
        slot tr hv hdpi hbus halloc hpin hfail] at hret
      exact hfail hret
    by_cases hc : cfg.rgb_ele_order = LCD_RGB_ELEMENT_ORDER_RGB ∨
        cfg.rgb_ele_order = LCD_RGB_ELEMENT_ORDER_BGR
    · by_cases hb : cfg.bits_per_pixel = 16 ∨ cfg.bits_per_pixel = 18 ∨
          cfg.bits_per_pixel = 24
      · cases hres : env.esp_lcd_new_panel_dpi
            (tr ++ [PanelEvent.calloc (some ptr)] ++
        (if cfg.reset_gpio_num ≥ 0 then
          [PanelEvent.gpio_config (reset_pin_mask cfg.reset_gpio_num) ESP_OK] else []))
            dsi_bus dpi_config slot with
        | created panel => exact ⟨ptr, panel, rfl, hgpio, hc, hb, hres⟩
        | failed code hcode slot_after =>
          rw [simple_create_dpi_fails env fns io_handle cfg vendor_config dpi_config dsi_bus ptr
            slot tr code hcode slot_after hv hdpi hbus halloc hgpio hc hb hres] at hret
          exact absurd hret hcode
      · rw [simple_create_unsupported env fns io_handle cfg vendor_config dpi_config dsi_bus ptr
          slot tr hv hdpi hbus halloc hgpio (Or.inr hb)] at hret
        simp [ESP_ERR_NOT_SUPPORTED, ESP_OK] at hret
    · rw [simple_create_unsupported env fns io_handle cfg vendor_config dpi_config dsi_bus ptr
        slot tr hv hdpi hbus halloc hgpio (Or.inl hc)] at hret
      simp [ESP_ERR_NOT_SUPPORTED, ESP_OK] at hret

/-! ## The theorems -/

/-- C1, counterexample: on an initialized controller with `max_brightness = 1000`, a call with
`percent = 100` computes the value 1000, and the one write it issues carries the data byte 232,
not 1000. -/
theorem set_brightness_byte_is_not_value :
    brightness_value 100 1000 = 1000 ∧
    (esp_panel_backlight_i2c_set_brightness bus_ok 100
        { sample_world with
          g_i2c_config := { sample_config with max_brightness := 1000 } }).2.trace =
      [Event.write { port := 0, addr := 0x45, data := [0x86, 232], timeout_ms := 100 } ESP_OK] ∧
    (esp_panel_backlight_i2c_set_brightness bus_ok 100
        { sample_world with
          g_i2c_config := { sample_config with max_brightness := 1000 } }).2.trace ≠
      [Event.write { port := 0, addr := 0x45, data := [0x86, 1000], timeout_ms := 100 }
        ESP_OK] := by
  decide

/-- C1, amended: on an initialized controller whose `max_brightness` satisfies
`|max_brightness| ≤ 21474836`, so that `percent * max_brightness` fits the 32-bit `int` it is
computed in, and for `0 ≤ percent ≤ 100`, `esp_panel_backlight_i2c_set_brightness` computes
`value = percent * max_brightness / 100` with the quotient truncated toward zero and issues
exactly one write, of the two bytes `brightness_cmd` and `value` reduced modulo 256, to the
configured port and address; it returns the result of that write and changes nothing else.
When `0 ≤ max_brightness ≤ 255` the data byte is `value` itself. -/
theorem set_brightness_issues_one_write (bus : Bus) (w : World) (percent : Int)
    (hinit : w.g_i2c_initialized = true) (h0 : 0 ≤ percent) (h100 : percent ≤ 100)
    (hlo : -21474836 ≤ w.g_i2c_config.max_brightness)
    (hhi : w.g_i2c_config.max_brightness ≤ 21474836) :
    let value := Int.tdiv (percent * w.g_i2c_config.max_brightness) 100
    let req : I2CWrite :=
      { port := w.g_i2c_config.i2c_port, addr := w.g_i2c_config.i2c_addr,
        data := [w.g_i2c_config.brightness_cmd, (value % 256).toNat], timeout_ms := 100 }
    esp_panel_backlight_i2c_set_brightness bus percent w =
        (bus w.trace req, { w with trace := w.trace ++ [Event.write req (bus w.trace req)] }) ∧
      (0 ≤ w.g_i2c_config.max_brightness → w.g_i2c_config.max_brightness ≤ 255 →
        (((value % 256).toNat : Nat) : Int) = value) := by
  intro value req
  have hbv := brightness_value_no_overflow percent w.g_i2c_config.max_brightness h0 h100
    hlo hhi
  have hreq : brightness_write w.g_i2c_config percent = req := by
    simp only [brightness_write, to_uint8, hbv]
  refine ⟨?_, ?_⟩
  · rw [set_brightness_in_range bus percent w hinit h0 h100, hreq]
  · intro hm0 hm
    have hv := brightness_value_fits percent w.g_i2c_config.max_brightness h0 h100 hm0 hm
    rw [hbv] at hv
    have hv2 : 0 ≤ value ∧ value ≤ w.g_i2c_config.max_brightness := hv
    omega

/-- C1, witness: `percent = 50` with `max_brightness = 255` writes `(0x86, 127)`. -/
theorem set_brightness_issues_one_write_witness :
    esp_panel_backlight_i2c_set_brightness bus_ok 50 sample_world =
      (ESP_OK, { sample_world with
        trace := [Event.write { port := 0, addr := 0x45, data := [0x86, 127],
                                timeout_ms := 100 } ESP_OK] }) :=
  (set_brightness_issues_one_write bus_ok sample_world 50 rfl (by decide) (by decide)
    (by decide) (by decide)).1

/-- C2: on an initialized controller, for every `percent < 0` or `percent > 100`,
`esp_panel_backlight_i2c_set_brightness` fails with `ESP_ERR_INVALID_ARG` and leaves the
world, its event trace included, as it was: no bus transaction is issued.
`BacklightI2C::setBrightness` with such a `percent` reports failure and leaves object and
world as they were. -/
theorem set_brightness_out_of_range (bus : Bus) (w : World) (self : BacklightI2C)
    (percent : Int) (hinit : w.g_i2c_initialized = true)
    (h : percent < 0 ∨ percent > 100) :
    esp_panel_backlight_i2c_set_brightness bus percent w = (ESP_ERR_INVALID_ARG, w) ∧
      BacklightI2C.setBrightness bus percent self w = (false, self, w) := by
  have hr : ¬ (percent ≥ 0 ∧ percent ≤ 100) := by omega
  have h1 : esp_panel_backlight_i2c_set_brightness bus percent w =
      (ESP_ERR_INVALID_ARG, w) := by
    simp [esp_panel_backlight_i2c_set_brightness, hinit, hr]
  refine ⟨h1, ?_⟩
  unfold BacklightI2C.setBrightness
  by_cases hs : self._initialized = true
  · simp [hs, h1, ESP_ERR_INVALID_ARG, ESP_OK]
  · simp [hs]

/-- C2, witness: `percent = 101` on the initialized sample controller. -/
theorem set_brightness_out_of_range_witness :
    esp_panel_backlight_i2c_set_brightness bus_ok 101 sample_world =
      (ESP_ERR_INVALID_ARG, sample_world) :=
  (set_brightness_out_of_range bus_ok sample_world (BacklightI2C.new sample_config) 101
    rfl (Or.inr (by decide))).1

/-- C3: while `g_i2c_initialized` is false, as it is from program start until the first call
of init, `esp_panel_backlight_i2c_set_brightness` for every `percent` and
`esp_panel_backlight_i2c_set_power` for every `on` fail with `ESP_ERR_INVALID_STATE` and
leave the world, its event trace included, as it was: no bus transaction is issued. -/
theorem set_before_init_invalid_state (bus : Bus) (w : World) (percent : Int) (on_ : Bool)
    (h : w.g_i2c_initialized = false) :
    esp_panel_backlight_i2c_set_brightness bus percent w = (ESP_ERR_INVALID_STATE, w) ∧
      esp_panel_backlight_i2c_set_power bus on_ w = (ESP_ERR_INVALID_STATE, w) :=
  ⟨set_brightness_uninit bus percent w h, set_power_uninit bus on_ w h⟩

/-- C3, witness: the state at program start, `percent = 50`, power on. -/
theorem set_before_init_invalid_state_witness :
    esp_panel_backlight_i2c_set_brightness bus_ok 50 World.initial =
        (ESP_ERR_INVALID_STATE, World.initial) ∧
      esp_panel_backlight_i2c_set_power bus_ok true World.initial =
        (ESP_ERR_INVALID_STATE, World.initial) :=
  set_before_init_invalid_state bus_ok World.initial 50 true rfl

/-- C4, counterexample: after a successful `esp_panel_backlight_i2c_init` of the sample
configuration, a second call with the same configuration returns `ESP_OK` but probes the
transport again and writes the three init commands again. -/
theorem second_init_replays :
    (esp_panel_backlight_i2c_init bus_ok (some sample_config) World.initial).1 = ESP_OK ∧
    (esp_panel_backlight_i2c_init bus_ok (some sample_config)
        (esp_panel_backlight_i2c_init bus_ok (some sample_config) World.initial).2).1 =
      ESP_OK ∧
    (esp_panel_backlight_i2c_init bus_ok (some sample_config)
        (esp_panel_backlight_i2c_init bus_ok (some sample_config) World.initial).2).2.trace =
      (esp_panel_backlight_i2c_init bus_ok (some sample_config) World.initial).2.trace ++
        [Event.write { port := 0, addr := 0, data := [0], timeout_ms := 10 } ESP_OK,
         Event.write { port := 0, addr := 0x45, data := [0x95, 0x11], timeout_ms := 100 } ESP_OK,
         Event.delay 10,
         Event.write { port := 0, addr := 0x45, data := [0x95, 0x17], timeout_ms := 100 } ESP_OK,
         Event.write { port := 0, addr := 0x45, data := [0x96, 0x00], timeout_ms := 100 } ESP_OK,
         Event.delay 20] := by
  decide

/-- C4, amended: after a successful `BacklightI2C::begin`, a second `begin` on the same object
returns success and leaves the object and the world, its event trace included, as they were:
it performs no bus transaction, neither the probe nor a command write.  This holds for every
configuration, transport and prior state; the guard is the member `_initialized` of the class,
and `esp_panel_backlight_i2c_init` has no guard of its own. -/
theorem begin_twice_no_transaction (bus : Bus) (self : BacklightI2C) (w : World)
    (h : (BacklightI2C.begin bus self w).1 = true) :
    BacklightI2C.begin bus (BacklightI2C.begin bus self w).2.1
        (BacklightI2C.begin bus self w).2.2 =
      (true, (BacklightI2C.begin bus self w).2.1, (BacklightI2C.begin bus self w).2.2) := by
  by_cases hs : self._initialized = true
  · simp [BacklightI2C.begin, hs]
  · by_cases hr : (esp_panel_backlight_i2c_init bus (some self._config) w).1 = ESP_OK
    · simp [BacklightI2C.begin, hs, hr]
    · simp [BacklightI2C.begin, hs, hr] at h

/-- C4, witness: the sample configuration on a transport that accepts every write. -/
theorem begin_twice_no_transaction_witness :
    (BacklightI2C.begin bus_ok (BacklightI2C.new sample_config) World.initial).1 = true ∧
    (BacklightI2C.begin bus_ok
        (BacklightI2C.begin bus_ok (BacklightI2C.new sample_config) World.initial).2.1
        (BacklightI2C.begin bus_ok (BacklightI2C.new sample_config) World.initial).2.2).2.2.trace
      = (BacklightI2C.begin bus_ok (BacklightI2C.new sample_config) World.initial).2.2.trace :=
  ⟨by decide,
   by rw [begin_twice_no_transaction bus_ok (BacklightI2C.new sample_config) World.initial
        (by decide)]⟩

/-- C5, the code at the failing input: the transport accepts the probe and the first init
command and refuses the second.  `esp_panel_backlight_i2c_init` returns `ESP_FAIL`, yet
`g_i2c_initialized` is true afterwards, and a following
`esp_panel_backlight_i2c_set_brightness(50)` and `esp_panel_backlight_i2c_set_power(true)`
each return `ESP_OK` after issuing a bus write. -/
theorem failed_init_leaves_flag_set :
    (esp_panel_backlight_i2c_init (bus_fail_at 2) (some sample_config) World.initial).1 =
      ESP_FAIL ∧
    (esp_panel_backlight_i2c_init (bus_fail_at 2) (some sample_config)
        World.initial).2.g_i2c_initialized = true ∧
    (esp_panel_backlight_i2c_set_brightness (bus_fail_at 2) 50
        (esp_panel_backlight_i2c_init (bus_fail_at 2) (some sample_config) World.initial).2).1 =
      ESP_OK ∧
    (esp_panel_backlight_i2c_set_brightness (bus_fail_at 2) 50
        (esp_panel_backlight_i2c_init (bus_fail_at 2) (some sample_config)
          World.initial).2).2.trace =
      (esp_panel_backlight_i2c_init (bus_fail_at 2) (some sample_config)
          World.initial).2.trace ++
        [Event.write { port := 0, addr := 0x45, data := [0x86, 127], timeout_ms := 100 }
          ESP_OK] ∧
    (esp_panel_backlight_i2c_set_power (bus_fail_at 2) true
        (esp_panel_backlight_i2c_init (bus_fail_at 2) (some sample_config) World.initial).2).1 =
      ESP_OK ∧
    (esp_panel_backlight_i2c_set_power (bus_fail_at 2) true
        (esp_panel_backlight_i2c_init (bus_fail_at 2) (some sample_config)
          World.initial).2).2.trace =
      (esp_panel_backlight_i2c_init (bus_fail_at 2) (some sample_config)
          World.initial).2.trace ++
        [Event.write { port := 0, addr := 0x45, data := [0x85, 1], timeout_ms := 100 }
          ESP_OK] := by
  decide

/-- C6: for an init sequence of `n ≥ 1` records, on a transport whose probe does not report a
missing driver and which accepts every command write, `esp_panel_backlight_i2c_init` returns
`ESP_OK` and its events are the probe followed, for each record in the supplied order, by the
two-byte write `(command, data)` to the configured port and address and then by the record's
delay when that is nonzero.  So the writes after the probe are exactly the `n` command writes
in order, and the total suspension is the sum of the records' `delay_ms`. -/
theorem init_plays_sequence (bus : Bus) (config : esp_panel_backlight_i2c_config_t)
    (seq : List esp_panel_backlight_i2c_cmd_t) (w : World)
    (hseq : config.init_sequence = some seq) (hn : 1 ≤ seq.length)
    (hprobe : bus w.trace (probe_write config) ≠ ESP_ERR_INVALID_STATE)
    (hacc : Accepts bus config
      (w.trace ++ [Event.write (probe_write config) (bus w.trace (probe_write config))]) seq) :
    (esp_panel_backlight_i2c_init bus (some config) w).1 = ESP_OK ∧
      (esp_panel_backlight_i2c_init bus (some config) w).2.trace =
        w.trace ++ [Event.write (probe_write config) (bus w.trace (probe_write config))] ++
          played config seq ∧
      writes_of (played config seq) =
        seq.map (fun c => { port := config.i2c_port, addr := config.i2c_addr,
                            data := [c.command, c.data], timeout_ms := 100 }) ∧
      (writes_of (played config seq)).length = seq.length ∧
      suspended_ms (played config seq) = (seq.map (fun c => c.delay_ms)).sum := by
  have hne : seq ≠ [] := by
    intro h0
    rw [h0] at hn
    simp at hn
  have hrun := init_loop_accepts bus config seq []
    { g_i2c_config := config, g_i2c_initialized := true,
      trace := w.trace ++
        [Event.write (probe_write config) (bus w.trace (probe_write config))] } hacc
  rw [List.append_nil] at hrun
  have hw := writes_of_played config seq
  refine ⟨?_, ?_, ?_, ?_, suspended_ms_played config seq⟩
  · rw [init_valid bus config seq w hseq hne, if_neg hprobe, hrun]
    rfl
  · rw [init_valid bus config seq w hseq hne, if_neg hprobe, hrun]
    rfl
  · rw [hw]
    rfl
  · rw [hw, List.length_map]

/-- C6, witness: the three sample commands with delays 10, 0 and 20 ms give three writes in
order and 30 ms of suspension. -/
theorem init_plays_sequence_witness :
    (esp_panel_backlight_i2c_init bus_ok (some sample_config) World.initial).2.trace =
        [Event.write { port := 0, addr := 0, data := [0], timeout_ms := 10 } ESP_OK,
         Event.write { port := 0, addr := 0x45, data := [0x95, 0x11], timeout_ms := 100 } ESP_OK,
         Event.delay 10,
         Event.write { port := 0, addr := 0x45, data := [0x95, 0x17], timeout_ms := 100 } ESP_OK,
         Event.write { port := 0, addr := 0x45, data := [0x96, 0x00], timeout_ms := 100 } ESP_OK,
         Event.delay 20] ∧
      suspended_ms (esp_panel_backlight_i2c_init bus_ok (some sample_config)
        World.initial).2.trace = 30 :=
  have h := init_plays_sequence bus_ok sample_config
    [⟨0x95, 0x11, 10⟩, ⟨0x95, 0x17, 0⟩, ⟨0x96, 0x00, 20⟩] World.initial rfl (by decide)
    (by decide) ⟨rfl, rfl, rfl, trivial⟩
  ⟨h.2.1, by rw [h.2.1]; decide⟩

/-- C7: for an init sequence of length `n` and an index `k < n`, if the probe does not report
a missing driver, the writes of commands `0..k-1` are accepted and the write of command `k`
returns an error, then `esp_panel_backlight_i2c_init` returns that error, and its events are
the probe, the events of playing commands `0..k-1`, and the failed write of command `k` as the
last event: the command writes are those of commands `0..k` only, commands `k+1..n-1` are never
sent, and the suspension is that of commands `0..k-1` only, without command `k`'s delay. -/
theorem init_aborts_at_failed_write (bus : Bus) (config : esp_panel_backlight_i2c_config_t)
    (seq : List esp_panel_backlight_i2c_cmd_t) (w : World) (k : Nat)
    (hseq : config.init_sequence = some seq) (hk : k < seq.length)
    (hprobe : bus w.trace (probe_write config) ≠ ESP_ERR_INVALID_STATE)
    (hacc : Accepts bus config
      (w.trace ++ [Event.write (probe_write config) (bus w.trace (probe_write config))])
      (seq.take k))
    (hfail : bus
      (w.trace ++ [Event.write (probe_write config) (bus w.trace (probe_write config))] ++
        played config (seq.take k))
      (cmd_write config (seq.get ⟨k, hk⟩)) ≠ ESP_OK) :
    (esp_panel_backlight_i2c_init bus (some config) w).1 =
        bus
          (w.trace ++ [Event.write (probe_write config) (bus w.trace (probe_write config))] ++
            played config (seq.take k))
          (cmd_write config (seq.get ⟨k, hk⟩)) ∧
      (esp_panel_backlight_i2c_init bus (some config) w).1 ≠ ESP_OK ∧
      (esp_panel_backlight_i2c_init bus (some config) w).2.trace =
        w.trace ++ [Event.write (probe_write config) (bus w.trace (probe_write config))] ++
          played config (seq.take k) ++
          [Event.write (cmd_write config (seq.get ⟨k, hk⟩))
            (esp_panel_backlight_i2c_init bus (some config) w).1] ∧
      writes_of (played config (seq.take k) ++
          [Event.write (cmd_write config (seq.get ⟨k, hk⟩))
            (esp_panel_backlight_i2c_init bus (some config) w).1]) =
        (seq.take (k + 1)).map (cmd_write config) ∧
      suspended_ms (played config (seq.take k) ++
          [Event.write (cmd_write config (seq.get ⟨k, hk⟩))
            (esp_panel_backlight_i2c_init bus (some config) w).1]) =
        ((seq.take k).map (fun c => c.delay_ms)).sum := by
  have hne : seq ≠ [] := by
    intro h0
    rw [h0] at hk
    simp at hk
  have hsplit : seq = seq.take k ++ seq.get ⟨k, hk⟩ :: seq.drop (k + 1) := by
    have h1 := List.take_append_drop k seq
    rw [List.drop_eq_getElem_cons hk] at h1
    exact h1.symm
  have hrun := init_loop_accepts bus config (seq.take k)
    (seq.get ⟨k, hk⟩ :: seq.drop (k + 1))
    { g_i2c_config := config, g_i2c_initialized := true,
      trace := w.trace ++
        [Event.write (probe_write config) (bus w.trace (probe_write config))] } hacc
  rw [← hsplit] at hrun
  have hstep := init_loop_step_fail bus config (seq.get ⟨k, hk⟩) (seq.drop (k + 1))
    { g_i2c_config := config, g_i2c_initialized := true,
      trace := w.trace ++
        [Event.write (probe_write config) (bus w.trace (probe_write config))] ++
        played config (seq.take k) } hfail
  have hinit := init_valid bus config seq w hseq hne
  rw [if_neg hprobe, hrun, hstep] at hinit
  have htake : seq.take (k + 1) = seq.take k ++ [seq.get ⟨k, hk⟩] := by
    rw [List.take_succ, List.getElem?_eq_getElem hk]
    rfl
  refine ⟨?_, ?_, ?_, ?_, ?_⟩
  · rw [hinit]
  · rw [hinit]
    exact hfail
  · rw [hinit]
  · rw [writes_of_append, writes_of_played, htake, List.map_append]
    rfl
  · rw [suspended_ms_append, suspended_ms_played]
    rfl

/-- C7, witness: the sample sequence on a transport that refuses the write of command 1. -/
theorem init_aborts_at_failed_write_witness :
    (esp_panel_backlight_i2c_init (bus_fail_at 2) (some sample_config) World.initial).1 =
        ESP_FAIL ∧
      (esp_panel_backlight_i2c_init (bus_fail_at 2) (some sample_config)
          World.initial).2.trace =
        [Event.write { port := 0, addr := 0, data := [0], timeout_ms := 10 } ESP_OK,
         Event.write { port := 0, addr := 0x45, data := [0x95, 0x11], timeout_ms := 100 } ESP_OK,
         Event.delay 10,
         Event.write { port := 0, addr := 0x45, data := [0x95, 0x17], timeout_ms := 100 }
           ESP_FAIL] :=
  have h := init_aborts_at_failed_write (bus_fail_at 2) sample_config
    [⟨0x95, 0x11, 10⟩, ⟨0x95, 0x17, 0⟩, ⟨0x96, 0x00, 20⟩] World.initial 1 rfl (by decide)
    (by decide) ⟨rfl, trivial⟩ (by decide)
  ⟨h.1, h.2.2.1⟩

/-- C8: for a configuration that passes the argument checks, `esp_panel_backlight_i2c_init`
first writes the probe to address 0.  If the probe reports `ESP_ERR_INVALID_STATE`, init
returns that error and the world is as before except for the probe event: `g_i2c_config` is
not stored, `g_i2c_initialized` is unchanged (so a controller that was not initialized stays
so), and no init command is sent.  For every other probe result `r`, success or error, init
stores the configuration and plays the init sequence: its result and final world are those of
the command loop started with the configuration stored, whatever `r` is, and the first
command write follows the probe. -/
theorem init_probe_gate (bus : Bus) (config : esp_panel_backlight_i2c_config_t)
    (seq : List esp_panel_backlight_i2c_cmd_t) (w : World)
    (hseq : config.init_sequence = some seq) (hne : seq ≠ []) :
    (bus w.trace (probe_write config) = ESP_ERR_INVALID_STATE →
        esp_panel_backlight_i2c_init bus (some config) w =
          (ESP_ERR_INVALID_STATE,
            { g_i2c_config := w.g_i2c_config, g_i2c_initialized := w.g_i2c_initialized,
              trace := w.trace ++
                [Event.write { port := config.i2c_port, addr := 0, data := [0],
                               timeout_ms := 10 } ESP_ERR_INVALID_STATE] }) ∧
        (w.g_i2c_initialized = false →
          (esp_panel_backlight_i2c_init bus (some config) w).2.g_i2c_initialized = false)) ∧
      (bus w.trace (probe_write config) ≠ ESP_ERR_INVALID_STATE →
        esp_panel_backlight_i2c_init bus (some config) w =
          init_loop bus config seq
            { g_i2c_config := config, g_i2c_initialized := true,
              trace := w.trace ++
                [Event.write { port := config.i2c_port, addr := 0, data := [0],
                               timeout_ms := 10 } (bus w.trace (probe_write config))] } ∧
        (esp_panel_backlight_i2c_init bus (some config) w).2.g_i2c_config = config ∧
        ∃ c rest ret later, seq = c :: rest ∧
          (esp_panel_backlight_i2c_init bus (some config) w).2.trace =
            w.trace ++
              [Event.write { port := config.i2c_port, addr := 0, data := [0],
                             timeout_ms := 10 } (bus w.trace (probe_write config)),
               Event.write (cmd_write config c) ret] ++ later) := by
  have hinit := init_valid bus config seq w hseq hne
  constructor
  · intro hp
    rw [if_pos hp] at hinit
    refine ⟨hinit, ?_⟩
    intro hw
    rw [hinit]
    exact hw
  · intro hp
    rw [if_neg hp] at hinit
    refine ⟨hinit, ?_, ?_⟩
    · rw [hinit]
      exact (init_loop_frame bus config seq _).1
    · cases seq with
      | nil => exact absurd rfl hne
      | cons c rest =>
        refine ⟨c, rest, ?_⟩
        rw [hinit]
        by_cases hc : bus (w.trace ++
            [Event.write (probe_write config) (bus w.trace (probe_write config))])
            (cmd_write config c) = ESP_OK
        · rw [init_loop_step_ok bus config c rest _ hc]
          obtain ⟨-, -, ext, hext⟩ := init_loop_frame bus config rest
            { g_i2c_config := config, g_i2c_initialized := true,
              trace := w.trace ++
                [Event.write (probe_write config) (bus w.trace (probe_write config))] ++
                played config [c] }
          refine ⟨ESP_OK, (if c.delay_ms > 0 then [Event.delay c.delay_ms] else []) ++ ext,
            rfl, ?_⟩
          rw [hext]
          simp [played, probe_write]
        · rw [init_loop_step_fail bus config c rest _ hc]
          exact ⟨bus (w.trace ++
              [Event.write (probe_write config) (bus w.trace (probe_write config))])
            (cmd_write config c), [], rfl, by simp [probe_write]⟩

/-- C8, witness: the sample configuration on a transport whose driver is not installed. -/
theorem init_probe_gate_witness :
    esp_panel_backlight_i2c_init bus_not_installed (some sample_config) World.initial =
      (ESP_ERR_INVALID_STATE,
        { g_i2c_config := zero_config, g_i2c_initialized := false,
          trace := [Event.write { port := 0, addr := 0, data := [0], timeout_ms := 10 }
            ESP_ERR_INVALID_STATE] }) :=
  ((init_probe_gate bus_not_installed sample_config
    [⟨0x95, 0x11, 10⟩, ⟨0x95, 0x17, 0⟩, ⟨0x96, 0x00, 20⟩] World.initial rfl
    (by decide)).1 rfl).1

/-- C9: in every state `esp_panel_backlight_i2c_deinit` returns `ESP_OK`, leaves the event
trace and the stored configuration as they were, so issues no bus transaction, and leaves
`g_i2c_initialized` false.  In particular at program start it returns `ESP_OK` and changes
nothing; and after any init followed by deinit, `esp_panel_backlight_i2c_set_brightness` and
`esp_panel_backlight_i2c_set_power` fail with `ESP_ERR_INVALID_STATE` without a transaction.
`BacklightI2C::del` likewise returns success in every state, issues no transaction and leaves
`_initialized` false. -/
theorem deinit_always_succeeds (bus : Bus) (config : Option esp_panel_backlight_i2c_config_t)
    (w : World) (self : BacklightI2C) (percent : Int) (on_ : Bool) :
    esp_panel_backlight_i2c_deinit w =
        (ESP_OK, { g_i2c_config := w.g_i2c_config, g_i2c_initialized := false,
                   trace := w.trace }) ∧
      esp_panel_backlight_i2c_deinit World.initial = (ESP_OK, World.initial) ∧
      esp_panel_backlight_i2c_set_brightness bus percent
          (esp_panel_backlight_i2c_deinit (esp_panel_backlight_i2c_init bus config w).2).2 =
        (ESP_ERR_INVALID_STATE,
          (esp_panel_backlight_i2c_deinit (esp_panel_backlight_i2c_init bus config w).2).2) ∧
      esp_panel_backlight_i2c_set_power bus on_
          (esp_panel_backlight_i2c_deinit (esp_panel_backlight_i2c_init bus config w).2).2 =
        (ESP_ERR_INVALID_STATE,
          (esp_panel_backlight_i2c_deinit (esp_panel_backlight_i2c_init bus config w).2).2) ∧
      (BacklightI2C.del self w).1 = true ∧
      (BacklightI2C.del self w).2.1._initialized = false ∧
      (BacklightI2C.del self w).2.2.trace = w.trace := by
  have hflag : ∀ v : World, (esp_panel_backlight_i2c_deinit v).2.g_i2c_initialized = false := by
    intro v
    rw [deinit_eq]
  refine ⟨deinit_eq w, by decide, set_brightness_uninit bus percent _ (hflag _),
    set_power_uninit bus on_ _ (hflag _), ?_, ?_, ?_⟩
  · by_cases hs : self._initialized = true
    · simp [BacklightI2C.del, hs, deinit_eq]
    · simp [BacklightI2C.del, hs]
  · by_cases hs : self._initialized = true
    · simp [BacklightI2C.del, hs, deinit_eq]
    · simp [BacklightI2C.del, hs]
  · by_cases hs : self._initialized = true
    · simp [BacklightI2C.del, hs, deinit_eq]
    · simp [BacklightI2C.del, hs]

/-- C10: for a decorator state with a non-null transport handle `io` and any eight-bit shadow
value `v` in `madctl_val`, `panel_nodsiconf_mirror(x, y)` returns `ESP_OK` and changes only
`madctl_val`; in the new value bit 0 is set iff `x`, bit 1 is set iff `y`, and every other bit,
the colour-order bit `LCD_CMD_BGR_BIT` (bit 3) among them, is as in `v`. -/
theorem mirror_updates_two_bits (nodsiconf : nodsiconf_panel_t) (x y : Bool)
    (hio : nodsiconf.io ≠ none) (hv : nodsiconf.madctl_val < 256) :
    (panel_nodsiconf_mirror nodsiconf x y).1 = ESP_OK ∧
      (panel_nodsiconf_mirror nodsiconf x y).2 =
        { nodsiconf with madctl_val := (panel_nodsiconf_mirror nodsiconf x y).2.madctl_val } ∧
      (panel_nodsiconf_mirror nodsiconf x y).2.madctl_val.testBit 0 = x ∧
      (panel_nodsiconf_mirror nodsiconf x y).2.madctl_val.testBit 1 = y ∧
      (∀ i, 2 ≤ i → (panel_nodsiconf_mirror nodsiconf x y).2.madctl_val.testBit i =
        nodsiconf.madctl_val.testBit i) ∧
      (panel_nodsiconf_mirror nodsiconf x y).2.madctl_val &&& LCD_CMD_BGR_BIT =
        nodsiconf.madctl_val &&& LCD_CMD_BGR_BIT ∧
      (panel_nodsiconf_mirror nodsiconf x y).2.madctl_val < 256 := by
  have hc := mirror_value_closed nodsiconf.madctl_val hv x y
  have hm : panel_nodsiconf_mirror nodsiconf x y =
      (ESP_OK, { nodsiconf with madctl_val :=
        4 * (nodsiconf.madctl_val / 4) + (if x then 1 else 0) + (if y then 2 else 0) }) := by
    simp only [panel_nodsiconf_mirror, if_neg hio]
    rw [hc]
  rw [hm]
  have hdiv : (4 * (nodsiconf.madctl_val / 4) + (if x then 1 else 0) + (if y then 2 else 0)) / 4
      = nodsiconf.madctl_val / 4 := by
    cases x <;> cases y <;> simp <;> omega
  have hbits := testBit_of_div_four_eq _ _ hdiv
  refine ⟨rfl, rfl, ?_, ?_, hbits, ?_, ?_⟩
  · show (4 * (nodsiconf.madctl_val / 4) + (if x then 1 else 0) + (if y then 2 else 0)).testBit 0
      = x
    rw [Nat.testBit_zero]
    cases x <;> cases y <;> simp <;> omega
  · show (4 * (nodsiconf.madctl_val / 4) + (if x then 1 else 0) + (if y then 2 else 0)).testBit 1
      = y
    rw [Nat.testBit_to_div_mod]
    cases x <;> cases y <;> simp <;> omega
  · apply Nat.eq_of_testBit_eq
    intro i
    simp only [Nat.testBit_and]
    by_cases hi : 2 ≤ i
    · rw [hbits i hi]
    · have h3 : LCD_CMD_BGR_BIT.testBit i = false := by
        have : i = 0 ∨ i = 1 := by omega
        rcases this with h | h <;> subst h <;> decide
      simp [h3]
  · show 4 * (nodsiconf.madctl_val / 4) + (if x then 1 else 0) + (if y then 2 else 0) < 256
    cases x <;> cases y <;> simp <;> omega

/-- C10, witness: with the prior shadow value `0x0A` (bit 1 and the colour-order bit set),
`mirror(true, false)` gives `0x09`: bit 0 set, bit 1 cleared, the colour-order bit kept. -/
theorem mirror_updates_two_bits_witness :
    (panel_nodsiconf_mirror
        { io := some 1, reset_gpio_num := -1, madctl_val := 0x0A, colmod_val := 0x55,
          init_cmds := none, init_cmds_size := 0, lane_num := 2, reset_level := 0,
          del := 1, init := 2 } true false).2.madctl_val.testBit 0 = true ∧
      (panel_nodsiconf_mirror
        { io := some 1, reset_gpio_num := -1, madctl_val := 0x0A, colmod_val := 0x55,
          init_cmds := none, init_cmds_size := 0, lane_num := 2, reset_level := 0,
          del := 1, init := 2 } true false).2.madctl_val.testBit 1 = false :=
  have h := mirror_updates_two_bits
    { io := some 1, reset_gpio_num := -1, madctl_val := 0x0A, colmod_val := 0x55,
      init_cmds := none, init_cmds_size := 0, lane_num := 2, reset_level := 0,
      del := 1, init := 2 } true false (by decide) (by decide)
  ⟨h.2.2.1, h.2.2.2.1⟩

/-- C11: for the simple variant, `panel_simple_mirror`, `panel_simple_invert_color`,
`panel_simple_disp_on_off` and `panel_simple_sleep` return `ESP_OK` for every argument and
every decorator state, leave the decorator state as it was and add no event: in particular no
transport write, so that the four calls one after the other from an empty trace leave a
transmission count of 0. -/
theorem simple_ops_are_noops (simple : simple_panel_t) (x y f g h : Bool)
    (tr : List PanelEvent) :
    panel_simple_mirror simple x y tr = (ESP_OK, simple, tr) ∧
      panel_simple_invert_color simple f tr = (ESP_OK, simple, tr) ∧
      panel_simple_disp_on_off simple g tr = (ESP_OK, simple, tr) ∧
      panel_simple_sleep simple h tr = (ESP_OK, simple, tr) ∧
      count_tx (panel_simple_sleep simple h
        (panel_simple_disp_on_off simple g
          (panel_simple_invert_color simple f
            (panel_simple_mirror simple x y []).2.2).2.2).2.2).2.2 = 0 :=
  ⟨rfl, rfl, rfl, rfl, rfl⟩

/-- C12: in both variants one call of the decorator's destroy appends, in this order, the
release of the reset pin when `reset_gpio_num ≥ 0` and nothing otherwise, one call of the saved
vendor destroy, and the free of the decorator state.  So the saved destroy is called exactly
once, and the pin release exactly once if a reset pin was configured and zero times
otherwise. -/
theorem del_releases_destroys_frees (env : PanelEnv) (panel : esp_lcd_panel_t)
    (nodsiconf : nodsiconf_panel_t) (simple : simple_panel_t) (tr : List PanelEvent) :
    (panel_nodsiconf_del env panel nodsiconf tr).2 =
        tr ++ (if nodsiconf.reset_gpio_num ≥ 0
            then [PanelEvent.gpio_reset_pin nodsiconf.reset_gpio_num] else []) ++
          [PanelEvent.call nodsiconf.del
              (env.call
                (tr ++ (if nodsiconf.reset_gpio_num ≥ 0
                  then [PanelEvent.gpio_reset_pin nodsiconf.reset_gpio_num] else []))
                nodsiconf.del),
            PanelEvent.free panel.user_data] ∧
      count_call (panel_nodsiconf_del env panel nodsiconf tr).2 = count_call tr + 1 ∧
      count_release (panel_nodsiconf_del env panel nodsiconf tr).2 =
        count_release tr + (if nodsiconf.reset_gpio_num ≥ 0 then 1 else 0) ∧
      count_free (panel_nodsiconf_del env panel nodsiconf tr).2 = count_free tr + 1 ∧
      (panel_simple_del env panel simple tr).2 =
        tr ++ (if simple.reset_gpio_num ≥ 0
            then [PanelEvent.gpio_reset_pin simple.reset_gpio_num] else []) ++
          [PanelEvent.call simple.del
              (env.call
                (tr ++ (if simple.reset_gpio_num ≥ 0
                  then [PanelEvent.gpio_reset_pin simple.reset_gpio_num] else []))
                simple.del),
            PanelEvent.free panel.user_data] ∧
      count_call (panel_simple_del env panel simple tr).2 = count_call tr + 1 ∧
      count_release (panel_simple_del env panel simple tr).2 =
        count_release tr + (if simple.reset_gpio_num ≥ 0 then 1 else 0) ∧
      count_free (panel_simple_del env panel simple tr).2 = count_free tr + 1 := by
  refine ⟨?_, ?_, ?_, ?_, ?_, ?_, ?_, ?_⟩
  · by_cases hp : nodsiconf.reset_gpio_num ≥ 0 <;> simp [panel_nodsiconf_del, hp]
  · by_cases hp : nodsiconf.reset_gpio_num ≥ 0 <;>
      simp [panel_nodsiconf_del, hp, count_call_append, count_call]
  · by_cases hp : nodsiconf.reset_gpio_num ≥ 0 <;>
      simp [panel_nodsiconf_del, hp, count_release_append, count_release]
  · by_cases hp : nodsiconf.reset_gpio_num ≥ 0 <;>
      simp [panel_nodsiconf_del, hp, count_free_append, count_free]
  · by_cases hp : simple.reset_gpio_num ≥ 0 <;> simp [panel_simple_del, hp]
  · by_cases hp : simple.reset_gpio_num ≥ 0 <;>
      simp [panel_simple_del, hp, count_call_append, count_call]
  · by_cases hp : simple.reset_gpio_num ≥ 0 <;>
      simp [panel_simple_del, hp, count_release_append, count_release]
  · by_cases hp : simple.reset_gpio_num ≥ 0 <;>
      simp [panel_simple_del, hp, count_free_append, count_free]

/-- C13, counterexample: when the saved vendor destroy returns `ESP_FAIL`, the destroy of
either decorator still returns `ESP_OK`. -/
theorem del_swallows_vendor_failure :
    panel_nodsiconf_del env_call_fails sample_decorated_panel sample_nodsiconf [] =
        (ESP_OK, [PanelEvent.gpio_reset_pin 5, PanelEvent.call 103 ESP_FAIL,
                  PanelEvent.free (some 0x1000)]) ∧
      panel_simple_del env_call_fails sample_decorated_panel sample_simple [] =
        (ESP_OK, [PanelEvent.gpio_reset_pin 5, PanelEvent.call 103 ESP_FAIL,
                  PanelEvent.free (some 0x1000)]) := by
  decide

/-- C13, amended: in both variants the decorator's destroy calls the saved vendor destroy,
does not use its result, goes on to free the decorator state, and returns `ESP_OK` whether
the vendor destroy succeeded or failed. -/
theorem del_returns_ok (env : PanelEnv) (panel : esp_lcd_panel_t)
    (nodsiconf : nodsiconf_panel_t) (simple : simple_panel_t) (tr : List PanelEvent) :
    panel_nodsiconf_del env panel nodsiconf tr =
        (ESP_OK,
          tr ++ (if nodsiconf.reset_gpio_num ≥ 0
              then [PanelEvent.gpio_reset_pin nodsiconf.reset_gpio_num] else []) ++
            [PanelEvent.call nodsiconf.del
                (env.call
                  (tr ++ (if nodsiconf.reset_gpio_num ≥ 0
                    then [PanelEvent.gpio_reset_pin nodsiconf.reset_gpio_num] else []))
                  nodsiconf.del),
              PanelEvent.free panel.user_data]) ∧
      panel_simple_del env panel simple tr =
        (ESP_OK,
          tr ++ (if simple.reset_gpio_num ≥ 0
              then [PanelEvent.gpio_reset_pin simple.reset_gpio_num] else []) ++
            [PanelEvent.call simple.del
                (env.call
                  (tr ++ (if simple.reset_gpio_num ≥ 0
                    then [PanelEvent.gpio_reset_pin simple.reset_gpio_num] else []))
                  simple.del),
              PanelEvent.free panel.user_data]) := by
  constructor
  · by_cases hp : nodsiconf.reset_gpio_num ≥ 0 <;> simp [panel_nodsiconf_del, hp]
  · by_cases hp : simple.reset_gpio_num ≥ 0 <;> simp [panel_simple_del, hp]

/-- C14: in both variants and for every init command table, the decorator's initialize calls
the saved vendor initialize exactly once, as its last event, after the events of the whole
command-table loop (which are delays only), and returns exactly the result of that call,
`ESP_OK` or the vendor's error code. -/
theorem init_calls_saved_init_once (env : PanelEnv) (nodsiconf : nodsiconf_panel_t)
    (simple : simple_panel_t) (tr : List PanelEvent) :
    (panel_nodsiconf_init env nodsiconf tr).2.2 =
        (nodsiconf_init_loop (init_table nodsiconf.init_cmds nodsiconf.init_cmds_size)
            (nodsiconf, tr)).2 ++
          [PanelEvent.call nodsiconf.init (panel_nodsiconf_init env nodsiconf tr).1] ∧
      (panel_nodsiconf_init env nodsiconf tr).1 =
        env.call
          (nodsiconf_init_loop (init_table nodsiconf.init_cmds nodsiconf.init_cmds_size)
            (nodsiconf, tr)).2 nodsiconf.init ∧
      count_call (panel_nodsiconf_init env nodsiconf tr).2.2 = count_call tr + 1 ∧
      (panel_simple_init env simple tr).2.2 =
        (simple_init_loop (init_table simple.init_cmds simple.init_cmds_size)
            (simple, tr)).2 ++
          [PanelEvent.call simple.init (panel_simple_init env simple tr).1] ∧
      (panel_simple_init env simple tr).1 =
        env.call
          (simple_init_loop (init_table simple.init_cmds simple.init_cmds_size)
            (simple, tr)).2 simple.init ∧
      count_call (panel_simple_init env simple tr).2.2 = count_call tr + 1 := by
  obtain ⟨hn1, hn2⟩ := nodsiconf_init_spec env nodsiconf tr
  obtain ⟨hs1, hs2⟩ := simple_init_spec env simple tr
  obtain ⟨hln, -⟩ := nodsiconf_init_loop_spec
    (init_table nodsiconf.init_cmds nodsiconf.init_cmds_size) (nodsiconf, tr)
  obtain ⟨hls, -⟩ := simple_init_loop_spec
    (init_table simple.init_cmds simple.init_cmds_size) (simple, tr)
  refine ⟨?_, ?_, ?_, ?_, ?_, ?_⟩
  · rw [hln]
    exact hn2
  · rw [hln]
    exact hn1
  · rw [hn2, count_call_append, count_call_append, (count_delays _).1]
    simp [count_call]
  · rw [hls]
    exact hs2
  · rw [hls]
    exact hs1
  · rw [hs2, count_call_append, count_call_append, (count_delays _).1]
    simp [count_call]

/-- C15, counterexample: `panel_nodsiconf_init` on the three-entry sample table transmits
nothing: its events are the three delays (the zero one included) and the call of the saved
initialize, and the number of transmissions is 0, not 3. -/
theorem nodsiconf_init_transmits_nothing :
    (panel_nodsiconf_init env_ok sample_nodsiconf []).2.2 =
        [PanelEvent.vTaskDelay 120, PanelEvent.vTaskDelay 0, PanelEvent.vTaskDelay 20,
         PanelEvent.call 102 ESP_OK] ∧
      count_tx (panel_nodsiconf_init env_ok sample_nodsiconf []).2.2 = 0 ∧
      (init_table sample_nodsiconf.init_cmds sample_nodsiconf.init_cmds_size).length = 3 := by
  decide

/-- C15, amended: for the no-config variant, initialize transmits no entry of the
caller-supplied init command table (the transmission is commented out in the source); for
every entry of the table, in order, it calls the delay service with that entry's delay, also
when the delay is zero, and then it calls the saved vendor initialize. -/
theorem nodsiconf_init_only_delays (env : PanelEnv) (nodsiconf : nodsiconf_panel_t)
    (tr : List PanelEvent) :
    (panel_nodsiconf_init env nodsiconf tr).2.2 =
        tr ++ (init_table nodsiconf.init_cmds nodsiconf.init_cmds_size).map
            (fun c => PanelEvent.vTaskDelay c.delay_ms) ++
          [PanelEvent.call nodsiconf.init (panel_nodsiconf_init env nodsiconf tr).1] ∧
      count_tx (panel_nodsiconf_init env nodsiconf tr).2.2 = count_tx tr := by
  obtain ⟨-, h2⟩ := nodsiconf_init_spec env nodsiconf tr
  refine ⟨h2, ?_⟩
  rw [h2, count_tx_append, count_tx_append, (count_delays _).2]
  simp [count_tx]

/-- C16, the code at the failing input: a simple decorator with the reset pin on GPIO 5 and
active level 0.  `panel_simple_reset` drives the pin to the inactive level 1 first and to the
active level 0 last, so the pin is left at the active level; `panel_nodsiconf_reset` on the
same configuration drives it to 0 first and leaves it at 1. -/
theorem simple_reset_leaves_pin_active :
    sample_simple.reset_level = 0 ∧
      panel_simple_reset sample_simple [] =
        (ESP_OK, [PanelEvent.gpio_set_level 5 1, PanelEvent.esp_rom_delay_us 10000,
                  PanelEvent.gpio_set_level 5 0, PanelEvent.esp_rom_delay_us 10000]) ∧
      panel_nodsiconf_reset sample_nodsiconf [] =
        (ESP_OK, [PanelEvent.gpio_set_level 5 0, PanelEvent.vTaskDelay 10,
                  PanelEvent.gpio_set_level 5 1, PanelEvent.vTaskDelay 10]) := by
  decide

/-- C20: on an initialized controller with `0 ≤ max_brightness ≤ 255` and for `percent` in
`[0, 100]`, `esp_panel_backlight_i2c_set_brightness` appends exactly one write whose data byte
`b`, the computed value cast to `uint8_t`, equals `percent * max_brightness / 100` without
wrap-around and lies between 0 and `max_brightness`; a call with a larger `percent2` writes a
byte `b2 ≥ b`; a call with `percent = 0` writes the byte 0 and a call with `percent = 100`
writes `max_brightness`.  And there is an initialized controller with `max_brightness > 255`
and a `percent` in `[0, 100]` for which the byte written differs from the computed value,
being that value modulo 256. -/
theorem set_brightness_byte_exact_up_to_255 (bus : Bus) (w : World) (percent percent2 : Int)
    (hinit : w.g_i2c_initialized = true)
    (hm0 : 0 ≤ w.g_i2c_config.max_brightness) (hm : w.g_i2c_config.max_brightness ≤ 255)
    (h0 : 0 ≤ percent) (h12 : percent ≤ percent2) (h100 : percent2 ≤ 100) :
    (∃ b b2 : Nat,
      (esp_panel_backlight_i2c_set_brightness bus percent w).2.trace =
        w.trace ++
          [Event.write
            { port := w.g_i2c_config.i2c_port, addr := w.g_i2c_config.i2c_addr,
              data := [w.g_i2c_config.brightness_cmd, b], timeout_ms := 100 }
            (esp_panel_backlight_i2c_set_brightness bus percent w).1] ∧
      (esp_panel_backlight_i2c_set_brightness bus percent2 w).2.trace =
        w.trace ++
          [Event.write
            { port := w.g_i2c_config.i2c_port, addr := w.g_i2c_config.i2c_addr,
              data := [w.g_i2c_config.brightness_cmd, b2], timeout_ms := 100 }
            (esp_panel_backlight_i2c_set_brightness bus percent2 w).1] ∧
      (b : Int) = Int.tdiv (percent * w.g_i2c_config.max_brightness) 100 ∧
      (b : Int) = percent * w.g_i2c_config.max_brightness / 100 ∧
      (b : Int) ≤ w.g_i2c_config.max_brightness ∧
      b ≤ b2) ∧
    (esp_panel_backlight_i2c_set_brightness bus 0 w).2.trace =
      w.trace ++
        [Event.write
          { port := w.g_i2c_config.i2c_port, addr := w.g_i2c_config.i2c_addr,
            data := [w.g_i2c_config.brightness_cmd, 0], timeout_ms := 100 }
          (esp_panel_backlight_i2c_set_brightness bus 0 w).1] ∧
    (esp_panel_backlight_i2c_set_brightness bus 100 w).2.trace =
      w.trace ++
        [Event.write
          { port := w.g_i2c_config.i2c_port, addr := w.g_i2c_config.i2c_addr,
            data := [w.g_i2c_config.brightness_cmd, w.g_i2c_config.max_brightness.toNat],
            timeout_ms := 100 }
          (esp_panel_backlight_i2c_set_brightness bus 100 w).1] ∧
    ∃ (v : World) (p : Int) (b : Nat),
      v.g_i2c_initialized = true ∧ 255 < v.g_i2c_config.max_brightness ∧ 0 ≤ p ∧ p ≤ 100 ∧
      (esp_panel_backlight_i2c_set_brightness bus p v).2.trace =
        v.trace ++
          [Event.write
            { port := v.g_i2c_config.i2c_port, addr := v.g_i2c_config.i2c_addr,
              data := [v.g_i2c_config.brightness_cmd, b], timeout_ms := 100 }
            (esp_panel_backlight_i2c_set_brightness bus p v).1] ∧
      (b : Int) ≠ Int.tdiv (p * v.g_i2c_config.max_brightness) 100 ∧
      (b : Int) = Int.tdiv (p * v.g_i2c_config.max_brightness) 100 % 256 := by
  have hp100 : percent ≤ 100 := le_trans h12 h100
  have hp2 : 0 ≤ percent2 := le_trans h0 h12
  have hv := brightness_value_fits percent w.g_i2c_config.max_brightness h0 hp100 hm0 hm
  have hv2 := brightness_value_fits percent2 w.g_i2c_config.max_brightness hp2 h100 hm0 hm
  have hb := to_uint8_of_fits _ hv.1 (le_trans hv.2 hm)
  have hb2 := to_uint8_of_fits _ hv2.1 (le_trans hv2.2 hm)
  have hmono := brightness_value_mono percent percent2 w.g_i2c_config.max_brightness h0 h12
    h100 hm0 (by omega)
  have hno := brightness_value_no_overflow percent w.g_i2c_config.max_brightness h0 hp100
    (by omega) (by omega)
  have hz : to_uint8 (brightness_value 0 w.g_i2c_config.max_brightness) = 0 := by
    rw [brightness_value_no_overflow 0 w.g_i2c_config.max_brightness (by decide) (by decide)
      (by omega) (by omega)]
    simp [to_uint8]
  have hfull : to_uint8 (brightness_value 100 w.g_i2c_config.max_brightness) =
      w.g_i2c_config.max_brightness.toNat := by
    have hv100 := brightness_value_fits 100 w.g_i2c_config.max_brightness (by decide)
      (by decide) hm0 hm
    have hn100 := brightness_value_no_overflow 100 w.g_i2c_config.max_brightness (by decide)
      (by decide) (by omega) (by omega)
    have hq : Int.tdiv (100 * w.g_i2c_config.max_brightness) 100 =
        w.g_i2c_config.max_brightness := by
      rw [Int.tdiv_eq_ediv (Int.mul_nonneg (by decide) hm0) (by decide)]
      omega
    rw [hn100, hq]
    unfold to_uint8
    omega
  refine ⟨⟨to_uint8 (brightness_value percent w.g_i2c_config.max_brightness),
    to_uint8 (brightness_value percent2 w.g_i2c_config.max_brightness), ?_, ?_, ?_, ?_, ?_, ?_⟩,
    ?_, ?_, ?_⟩
  · rw [set_brightness_in_range bus percent w hinit h0 hp100]
    rfl
  · rw [set_brightness_in_range bus percent2 w hinit hp2 h100]
    rfl
  · rw [hb, hno]
  · rw [hb, hno]
    exact Int.tdiv_eq_ediv (Int.mul_nonneg h0 hm0) (by decide)
  · rw [hb]
    exact hv.2
  · have : (to_uint8 (brightness_value percent w.g_i2c_config.max_brightness) : Int) ≤
        (to_uint8 (brightness_value percent2 w.g_i2c_config.max_brightness) : Int) := by
      rw [hb, hb2]
      exact hmono
    exact_mod_cast this
  · rw [set_brightness_in_range bus 0 w hinit (by decide) (by decide)]
    simp only [brightness_write, hz]
  · rw [set_brightness_in_range bus 100 w hinit (by decide) (by decide)]
    simp only [brightness_write, hfull]
  · refine ⟨{ sample_world with g_i2c_config := { sample_config with max_brightness := 256 } },
      100, 0, rfl, by decide, by decide, by decide, ?_, by decide, by decide⟩
    rw [set_brightness_in_range bus 100 _ rfl (by decide) (by decide)]
    rfl

/-- C20, witness: the sample controller (full scale 255) writes the byte 0 for `percent = 0`
and the byte 255 for `percent = 100`. -/
theorem set_brightness_byte_exact_up_to_255_witness :
    (esp_panel_backlight_i2c_set_brightness bus_ok 0 sample_world).2.trace =
        [Event.write { port := 0, addr := 0x45, data := [0x86, 0], timeout_ms := 100 } ESP_OK] ∧
      (esp_panel_backlight_i2c_set_brightness bus_ok 100 sample_world).2.trace =
        [Event.write { port := 0, addr := 0x45, data := [0x86, 255], timeout_ms := 100 }
          ESP_OK] :=
  have h := set_brightness_byte_exact_up_to_255 bus_ok sample_world 50 100 rfl (by decide)
    (by decide) (by decide) (by decide) (by decide)
  ⟨h.2.1, h.2.2.1⟩

/-- C17: in both constructors, once the arguments pass the checks, the decorator state is
allocated and the reset GPIO, if any, is configured: on success the shadow pixel-format byte is
`0x55`, `0x66` or `0x77` for `bits_per_pixel` 16, 18 or 24, and the shadow orientation byte is 0
for RGB order and exactly `LCD_CMD_BGR_BIT` (`0x08`) for BGR order; for every other colour
order or `bits_per_pixel` the constructor returns `ESP_ERR_NOT_SUPPORTED` and
`esp_lcd_new_panel_dpi` is never called. -/
theorem create_shadow_registers (env : PanelEnv) (fns : panel_fns) (io_handle : Nat)
    (cfg : esp_lcd_panel_dev_config_t) (vendor_config : esp_panel_lcd_vendor_config_t)
    (dpi_config dsi_bus ptr : Nat) (slot : Option esp_lcd_panel_t) (tr : List PanelEvent)
    (hv : cfg.vendor_config = some vendor_config)
    (hdpi : vendor_config.mipi_config.dpi_config = some dpi_config)
    (hbus : vendor_config.mipi_config.dsi_bus = some dsi_bus)
    (halloc : env.calloc tr = some ptr)
    (hgpio : cfg.reset_gpio_num ≥ 0 →
      env.gpio_config (tr ++ [PanelEvent.calloc (some ptr)])
        (reset_pin_mask cfg.reset_gpio_num) = ESP_OK) :
    ((esp_lcd_new_panel_nodsiconf env fns (some io_handle) (some cfg) (some slot) tr).ret = ESP_OK →
        ∃ s, (esp_lcd_new_panel_nodsiconf env fns (some io_handle) (some cfg) (some slot) tr).state = some s ∧
          (cfg.bits_per_pixel = 16 ∧ s.colmod_val = 0x55 ∨
            cfg.bits_per_pixel = 18 ∧ s.colmod_val = 0x66 ∨
            cfg.bits_per_pixel = 24 ∧ s.colmod_val = 0x77) ∧
          (cfg.rgb_ele_order = LCD_RGB_ELEMENT_ORDER_RGB ∧ s.madctl_val = 0 ∨
            cfg.rgb_ele_order = LCD_RGB_ELEMENT_ORDER_BGR ∧ s.madctl_val = 0x08)) ∧
      (¬ (cfg.rgb_ele_order = LCD_RGB_ELEMENT_ORDER_RGB ∨
            cfg.rgb_ele_order = LCD_RGB_ELEMENT_ORDER_BGR) ∨
          ¬ (cfg.bits_per_pixel = 16 ∨ cfg.bits_per_pixel = 18 ∨ cfg.bits_per_pixel = 24) →
        (esp_lcd_new_panel_nodsiconf env fns (some io_handle) (some cfg) (some slot) tr).ret = ESP_ERR_NOT_SUPPORTED ∧
          count_dpi (esp_lcd_new_panel_nodsiconf env fns (some io_handle) (some cfg) (some slot) tr).trace = count_dpi tr) ∧
      ((esp_lcd_new_panel_simple env fns (some io_handle) (some cfg) (some slot) tr).ret = ESP_OK →
        ∃ s, (esp_lcd_new_panel_simple env fns (some io_handle) (some cfg) (some slot) tr).state = some s ∧
          (cfg.bits_per_pixel = 16 ∧ s.colmod_val = 0x55 ∨
            cfg.bits_per_pixel = 18 ∧ s.colmod_val = 0x66 ∨
            cfg.bits_per_pixel = 24 ∧ s.colmod_val = 0x77) ∧
          (cfg.rgb_ele_order = LCD_RGB_ELEMENT_ORDER_RGB ∧ s.madctl_val = 0 ∨
            cfg.rgb_ele_order = LCD_RGB_ELEMENT_ORDER_BGR ∧ s.madctl_val = 0x08)) ∧
      (¬ (cfg.rgb_ele_order = LCD_RGB_ELEMENT_ORDER_RGB ∨
            cfg.rgb_ele_order = LCD_RGB_ELEMENT_ORDER_BGR) ∨
          ¬ (cfg.bits_per_pixel = 16 ∨ cfg.bits_per_pixel = 18 ∨ cfg.bits_per_pixel = 24) →
        (esp_lcd_new_panel_simple env fns (some io_handle) (some cfg) (some slot) tr).ret = ESP_ERR_NOT_SUPPORTED ∧
          count_dpi (esp_lcd_new_panel_simple env fns (some io_handle) (some cfg) (some slot) tr).trace = count_dpi tr) := by
  refine ⟨?_, ?_, ?_, ?_⟩
  · intro hret
    obtain ⟨ptr2, panel, ha, -, hc, hb, hres⟩ := nodsiconf_create_ok_inv env fns io_handle cfg
      vendor_config dpi_config dsi_bus slot tr hv hdpi hbus hret
    have hp : ptr2 = ptr := Option.some.inj (ha.symm.trans halloc)
    subst hp
    rw [nodsiconf_create_ok env fns io_handle cfg vendor_config dpi_config dsi_bus ptr2 slot tr panel
      hv hdpi hbus halloc hgpio hc hb hres]
    refine ⟨_, rfl, ?_, ?_⟩
    · rcases hb with h | h | h <;> simp [h]
    · rcases hc with h | h
      · simp [h]
      · simp [h, LCD_RGB_ELEMENT_ORDER_BGR, LCD_RGB_ELEMENT_ORDER_RGB]
  · intro hun
    rw [nodsiconf_create_unsupported env fns io_handle cfg vendor_config dpi_config dsi_bus ptr slot tr
      hv hdpi hbus halloc hgpio hun]
    refine ⟨rfl, ?_⟩
    by_cases hpin : cfg.reset_gpio_num ≥ 0 <;>
      simp [hpin, count_dpi_append, count_dpi]
  · intro hret
    obtain ⟨ptr2, panel, ha, -, hc, hb, hres⟩ := simple_create_ok_inv env fns io_handle cfg
      vendor_config dpi_config dsi_bus slot tr hv hdpi hbus hret
    have hp : ptr2 = ptr := Option.some.inj (ha.symm.trans halloc)
    subst hp
    rw [simple_create_ok env fns io_handle cfg vendor_config dpi_config dsi_bus ptr2 slot tr panel
      hv hdpi hbus halloc hgpio hc hb hres]
    refine ⟨_, rfl, ?_, ?_⟩
    · rcases hb with h | h | h <;> simp [h]
    · rcases hc with h | h
      · simp [h]
      · simp [h, LCD_RGB_ELEMENT_ORDER_BGR, LCD_RGB_ELEMENT_ORDER_RGB]
  · intro hun
    rw [simple_create_unsupported env fns io_handle cfg vendor_config dpi_config dsi_bus ptr slot tr
      hv hdpi hbus halloc hgpio hun]
    refine ⟨rfl, ?_⟩
    by_cases hpin : cfg.reset_gpio_num ≥ 0 <;>
      simp [hpin, count_dpi_append, count_dpi]

/-- C17, witness: the sample configuration (RGB, 16 bits) succeeds with a state that holds
`0x55` and 0. -/
theorem create_shadow_registers_witness :
    ∃ s, (esp_lcd_new_panel_nodsiconf env_ok sample_fns (some 1) (some sample_dev_config)
        (some none) []).state = some s ∧
      (sample_dev_config.bits_per_pixel = 16 ∧ s.colmod_val = 0x55 ∨
        sample_dev_config.bits_per_pixel = 18 ∧ s.colmod_val = 0x66 ∨
        sample_dev_config.bits_per_pixel = 24 ∧ s.colmod_val = 0x77) ∧
      (sample_dev_config.rgb_ele_order = LCD_RGB_ELEMENT_ORDER_RGB ∧ s.madctl_val = 0 ∨
        sample_dev_config.rgb_ele_order = LCD_RGB_ELEMENT_ORDER_BGR ∧ s.madctl_val = 0x08) :=
  (create_shadow_registers env_ok sample_fns 1 sample_dev_config
    { init_cmds := some sample_init_cmds, init_cmds_size := 3,
      mipi_config := { lane_num := 2, dsi_bus := some 0x2000, dpi_config := some 0x3000 } }
    0x3000 0x2000 0x1000 none [] rfl rfl rfl rfl (fun _ => rfl)).1 (by decide)

/-- C18: in both constructors, with arguments that pass the checks and the decorator state
allocated at `ptr`: a failing configuration of the reset GPIO, an unsupported colour order or
pixel width, and a failing `esp_lcd_new_panel_dpi` each make the constructor return that
step's error code, release the reset pin exactly once when `reset_gpio_num ≥ 0` and not at
all otherwise, free the decorator state as the last event, keep no state and leave
`*ret_panel` as it was (or as the vendor left it): no decorator is installed.  And whenever an
argument fails the checks (a null `io`, `panel_dev_config`, `ret_panel`, `vendor_config`,
`dpi_config` or `dsi_bus`), the constructor returns `ESP_ERR_INVALID_ARG` and adds no event, so
touches no GPIO. -/
theorem create_fails_cleanly (env : PanelEnv) (fns : panel_fns) (io_handle : Nat)
    (cfg : esp_lcd_panel_dev_config_t) (vendor_config : esp_panel_lcd_vendor_config_t)
    (dpi_config dsi_bus ptr : Nat) (slot : Option esp_lcd_panel_t) (tr : List PanelEvent)
    (hv : cfg.vendor_config = some vendor_config)
    (hdpi : vendor_config.mipi_config.dpi_config = some dpi_config)
    (hbus : vendor_config.mipi_config.dsi_bus = some dsi_bus)
    (halloc : env.calloc tr = some ptr) :
    (∀ io panel_dev_config ret_panel,
        new_panel_args_valid io panel_dev_config ret_panel = false →
        (esp_lcd_new_panel_nodsiconf env fns io panel_dev_config ret_panel tr).ret =
            ESP_ERR_INVALID_ARG ∧
          (esp_lcd_new_panel_nodsiconf env fns io panel_dev_config ret_panel tr).trace = tr ∧
          (esp_lcd_new_panel_nodsiconf env fns io panel_dev_config ret_panel tr).state = none) ∧
      (cfg.reset_gpio_num ≥ 0 →
        env.gpio_config (tr ++ [PanelEvent.calloc (some ptr)])
          (reset_pin_mask cfg.reset_gpio_num) ≠ ESP_OK →
        esp_lcd_new_panel_nodsiconf env fns (some io_handle) (some cfg) (some slot) tr =
          { ret := env.gpio_config (tr ++ [PanelEvent.calloc (some ptr)])
              (reset_pin_mask cfg.reset_gpio_num),
            ret_panel := slot, state := none,
            trace := tr ++ [PanelEvent.calloc (some ptr),
              PanelEvent.gpio_config (reset_pin_mask cfg.reset_gpio_num)
                (env.gpio_config (tr ++ [PanelEvent.calloc (some ptr)])
                  (reset_pin_mask cfg.reset_gpio_num)),
              PanelEvent.gpio_reset_pin cfg.reset_gpio_num, PanelEvent.free (some ptr)] }) ∧
      ((cfg.reset_gpio_num ≥ 0 →
          env.gpio_config (tr ++ [PanelEvent.calloc (some ptr)])
            (reset_pin_mask cfg.reset_gpio_num) = ESP_OK) →
        (¬ (cfg.rgb_ele_order = LCD_RGB_ELEMENT_ORDER_RGB ∨
            cfg.rgb_ele_order = LCD_RGB_ELEMENT_ORDER_BGR) ∨
          ¬ (cfg.bits_per_pixel = 16 ∨ cfg.bits_per_pixel = 18 ∨
            cfg.bits_per_pixel = 24)) →
        esp_lcd_new_panel_nodsiconf env fns (some io_handle) (some cfg) (some slot) tr =
          { ret := ESP_ERR_NOT_SUPPORTED, ret_panel := slot, state := none,
            trace := tr ++ [PanelEvent.calloc (some ptr)] ++
              (if cfg.reset_gpio_num ≥ 0 then
                [PanelEvent.gpio_config (reset_pin_mask cfg.reset_gpio_num) ESP_OK,
                 PanelEvent.gpio_reset_pin cfg.reset_gpio_num] else []) ++
              [PanelEvent.free (some ptr)] }) ∧
      (∀ code hcode slot_after,
        (cfg.reset_gpio_num ≥ 0 →
          env.gpio_config (tr ++ [PanelEvent.calloc (some ptr)])
            (reset_pin_mask cfg.reset_gpio_num) = ESP_OK) →
        (cfg.rgb_ele_order = LCD_RGB_ELEMENT_ORDER_RGB ∨
          cfg.rgb_ele_order = LCD_RGB_ELEMENT_ORDER_BGR) →
        (cfg.bits_per_pixel = 16 ∨ cfg.bits_per_pixel = 18 ∨ cfg.bits_per_pixel = 24) →
        env.esp_lcd_new_panel_dpi
          (tr ++ [PanelEvent.calloc (some ptr)] ++
            (if cfg.reset_gpio_num ≥ 0 then
              [PanelEvent.gpio_config (reset_pin_mask cfg.reset_gpio_num) ESP_OK] else []))
          dsi_bus dpi_config slot = DpiResult.failed code hcode slot_after →
        esp_lcd_new_panel_nodsiconf env fns (some io_handle) (some cfg) (some slot) tr =
          { ret := code, ret_panel := slot_after, state := none,
            trace := tr ++ [PanelEvent.calloc (some ptr)] ++
              (if cfg.reset_gpio_num ≥ 0 then
                [PanelEvent.gpio_config (reset_pin_mask cfg.reset_gpio_num) ESP_OK] else []) ++
              [PanelEvent.esp_lcd_new_panel_dpi dsi_bus dpi_config code] ++
              (if cfg.reset_gpio_num ≥ 0 then
                [PanelEvent.gpio_reset_pin cfg.reset_gpio_num] else []) ++
              [PanelEvent.free (some ptr)] }) ∧
      (∀ io panel_dev_config ret_panel,
        new_panel_args_valid io panel_dev_config ret_panel = false →
        (esp_lcd_new_panel_simple env fns io panel_dev_config ret_panel tr).ret =
            ESP_ERR_INVALID_ARG ∧
          (esp_lcd_new_panel_simple env fns io panel_dev_config ret_panel tr).trace = tr ∧
          (esp_lcd_new_panel_simple env fns io panel_dev_config ret_panel tr).state = none) ∧
      (cfg.reset_gpio_num ≥ 0 →
        env.gpio_config (tr ++ [PanelEvent.calloc (some ptr)])
          (reset_pin_mask cfg.reset_gpio_num) ≠ ESP_OK →
        esp_lcd_new_panel_simple env fns (some io_handle) (some cfg) (some slot) tr =
          { ret := env.gpio_config (tr ++ [PanelEvent.calloc (some ptr)])
              (reset_pin_mask cfg.reset_gpio_num),
            ret_panel := slot, state := none,
            trace := tr ++ [PanelEvent.calloc (some ptr),
              PanelEvent.gpio_config (reset_pin_mask cfg.reset_gpio_num)
                (env.gpio_config (tr ++ [PanelEvent.calloc (some ptr)])
                  (reset_pin_mask cfg.reset_gpio_num)),
              PanelEvent.gpio_reset_pin cfg.reset_gpio_num, PanelEvent.free (some ptr)] }) ∧
      ((cfg.reset_gpio_num ≥ 0 →
          env.gpio_config (tr ++ [PanelEvent.calloc (some ptr)])
            (reset_pin_mask cfg.reset_gpio_num) = ESP_OK) →
        (¬ (cfg.rgb_ele_order = LCD_RGB_ELEMENT_ORDER_RGB ∨
            cfg.rgb_ele_order = LCD_RGB_ELEMENT_ORDER_BGR) ∨
          ¬ (cfg.bits_per_pixel = 16 ∨ cfg.bits_per_pixel = 18 ∨
            cfg.bits_per_pixel = 24)) →
        esp_lcd_new_panel_simple env fns (some io_handle) (some cfg) (some slot) tr =
          { ret := ESP_ERR_NOT_SUPPORTED, ret_panel := slot, state := none,
            trace := tr ++ [PanelEvent.calloc (some ptr)] ++
              (if cfg.reset_gpio_num ≥ 0 then
                [PanelEvent.gpio_config (reset_pin_mask cfg.reset_gpio_num) ESP_OK,
                 PanelEvent.gpio_reset_pin cfg.reset_gpio_num] else []) ++
              [PanelEvent.free (some ptr)] }) ∧
      (∀ code hcode slot_after,
        (cfg.reset_gpio_num ≥ 0 →
          env.gpio_config (tr ++ [PanelEvent.calloc (some ptr)])
            (reset_pin_mask cfg.reset_gpio_num) = ESP_OK) →
        (cfg.rgb_ele_order = LCD_RGB_ELEMENT_ORDER_RGB ∨
          cfg.rgb_ele_order = LCD_RGB_ELEMENT_ORDER_BGR) →
        (cfg.bits_per_pixel = 16 ∨ cfg.bits_per_pixel = 18 ∨ cfg.bits_per_pixel = 24) →
        env.esp_lcd_new_panel_dpi
          (tr ++ [PanelEvent.calloc (some ptr)] ++
            (if cfg.reset_gpio_num ≥ 0 then
              [PanelEvent.gpio_config (reset_pin_mask cfg.reset_gpio_num) ESP_OK] else []))
          dsi_bus dpi_config slot = DpiResult.failed code hcode slot_after →
        esp_lcd_new_panel_simple env fns (some io_handle) (some cfg) (some slot) tr =
          { ret := code, ret_panel := slot_after, state := none,
            trace := tr ++ [PanelEvent.calloc (some ptr)] ++
              (if cfg.reset_gpio_num ≥ 0 then
                [PanelEvent.gpio_config (reset_pin_mask cfg.reset_gpio_num) ESP_OK] else []) ++
              [PanelEvent.esp_lcd_new_panel_dpi dsi_bus dpi_config code] ++
              (if cfg.reset_gpio_num ≥ 0 then
                [PanelEvent.gpio_reset_pin cfg.reset_gpio_num] else []) ++
              [PanelEvent.free (some ptr)] }) := by
  refine ⟨?_, ?_, ?_, ?_, ?_, ?_, ?_, ?_⟩
  · intro io panel_dev_config ret_panel h
    rw [nodsiconf_create_invalid env fns io panel_dev_config ret_panel tr h]
    exact ⟨rfl, rfl, rfl⟩
  · intro hpin hfail
    exact nodsiconf_create_gpio_fails env fns io_handle cfg vendor_config dpi_config dsi_bus ptr
      slot tr hv hdpi hbus halloc hpin hfail
  · intro hgpio hun
    exact nodsiconf_create_unsupported env fns io_handle cfg vendor_config dpi_config dsi_bus ptr
      slot tr hv hdpi hbus halloc hgpio hun
  · intro code hcode slot_after hgpio hc hb hres
    exact nodsiconf_create_dpi_fails env fns io_handle cfg vendor_config dpi_config dsi_bus ptr
      slot tr code hcode slot_after hv hdpi hbus halloc hgpio hc hb hres
  · intro io panel_dev_config ret_panel h
    rw [simple_create_invalid env fns io panel_dev_config ret_panel tr h]
    exact ⟨rfl, rfl, rfl⟩
  · intro hpin hfail
    exact simple_create_gpio_fails env fns io_handle cfg vendor_config dpi_config dsi_bus ptr
      slot tr hv hdpi hbus halloc hpin hfail
  · intro hgpio hun
    exact simple_create_unsupported env fns io_handle cfg vendor_config dpi_config dsi_bus ptr
      slot tr hv hdpi hbus halloc hgpio hun
  · intro code hcode slot_after hgpio hc hb hres
    exact simple_create_dpi_fails env fns io_handle cfg vendor_config dpi_config dsi_bus ptr
      slot tr code hcode slot_after hv hdpi hbus halloc hgpio hc hb hres

/-- C18, witness: the sample configuration with a vendor whose panel creation fails with
`ESP_ERR_NO_MEM`: the simple constructor returns that code, releases GPIO 5 once and frees the
state. -/
theorem create_fails_cleanly_witness :
    (esp_lcd_new_panel_simple env_dpi_fails sample_fns (some 1) (some sample_dev_config)
        (some none) []).ret = ESP_ERR_NO_MEM ∧
      (esp_lcd_new_panel_simple env_dpi_fails sample_fns (some 1) (some sample_dev_config)
        (some none) []).trace =
        [PanelEvent.calloc (some 0x1000), PanelEvent.gpio_config 32 ESP_OK,
         PanelEvent.esp_lcd_new_panel_dpi 0x2000 0x3000 ESP_ERR_NO_MEM,
         PanelEvent.gpio_reset_pin 5, PanelEvent.free (some 0x1000)] :=
  have h := (create_fails_cleanly env_dpi_fails sample_fns 1 sample_dev_config
    { init_cmds := some sample_init_cmds, init_cmds_size := 3,
      mipi_config := { lane_num := 2, dsi_bus := some 0x2000, dpi_config := some 0x3000 } }
    0x3000 0x2000 0x1000 none [] rfl rfl rfl rfl).2.2.2.2.2.2.2
    ESP_ERR_NO_MEM (by decide) none (fun _ => rfl) (Or.inl rfl) (Or.inl rfl) rfl
  ⟨by rw [h], by rw [h]; decide⟩

/-- C19: in both constructors, on success there are the address `ptr` that `calloc` returned
for the decorator state and the panel object `panel` that `esp_lcd_new_panel_dpi` created,
such that the operation table left in `*ret_panel` is `panel` with exactly the seven entries
`del`, `init`, `reset`, `mirror`, `invert_color`, `disp_on_off` and `disp_sleep` set to the
decorator's functions and `user_data` set to `ptr`, every other entry (`draw_bitmap`,
`swap_xy`, `set_gap`) being as the vendor made it, and the decorator state's saved `del` and
`init` are the vendor's `del` and `init`. -/
theorem create_installs_decorator (env : PanelEnv) (fns : panel_fns) (io_handle : Nat)
    (cfg : esp_lcd_panel_dev_config_t) (vendor_config : esp_panel_lcd_vendor_config_t)
    (dpi_config dsi_bus : Nat) (slot : Option esp_lcd_panel_t) (tr : List PanelEvent)
    (hv : cfg.vendor_config = some vendor_config)
    (hdpi : vendor_config.mipi_config.dpi_config = some dpi_config)
    (hbus : vendor_config.mipi_config.dsi_bus = some dsi_bus) :
    ((esp_lcd_new_panel_nodsiconf env fns (some io_handle) (some cfg) (some slot) tr).ret = ESP_OK →
        ∃ ptr panel before,
          env.calloc tr = some ptr ∧
          env.esp_lcd_new_panel_dpi before dsi_bus dpi_config slot = DpiResult.created panel ∧
          (esp_lcd_new_panel_nodsiconf env fns (some io_handle) (some cfg) (some slot) tr).ret_panel = some
            { panel with
              del := fns.del, init := fns.init, reset := fns.reset,
              mirror := fns.mirror, invert_color := fns.invert_color,
              disp_on_off := fns.disp_on_off, disp_sleep := fns.disp_sleep,
              user_data := some ptr } ∧
          ∃ d s, (esp_lcd_new_panel_nodsiconf env fns (some io_handle) (some cfg) (some slot) tr).ret_panel = some d ∧ (esp_lcd_new_panel_nodsiconf env fns (some io_handle) (some cfg) (some slot) tr).state = some s ∧
            s.del = panel.del ∧ s.init = panel.init ∧
            d.draw_bitmap = panel.draw_bitmap ∧ d.swap_xy = panel.swap_xy ∧
            d.set_gap = panel.set_gap) ∧
      ((esp_lcd_new_panel_simple env fns (some io_handle) (some cfg) (some slot) tr).ret = ESP_OK →
        ∃ ptr panel before,
          env.calloc tr = some ptr ∧
          env.esp_lcd_new_panel_dpi before dsi_bus dpi_config slot = DpiResult.created panel ∧
          (esp_lcd_new_panel_simple env fns (some io_handle) (some cfg) (some slot) tr).ret_panel = some
            { panel with
              del := fns.del, init := fns.init, reset := fns.reset,
              mirror := fns.mirror, invert_color := fns.invert_color,
              disp_on_off := fns.disp_on_off, disp_sleep := fns.disp_sleep,
              user_data := some ptr } ∧
          ∃ d s, (esp_lcd_new_panel_simple env fns (some io_handle) (some cfg) (some slot) tr).ret_panel = some d ∧ (esp_lcd_new_panel_simple env fns (some io_handle) (some cfg) (some slot) tr).state = some s ∧
            s.del = panel.del ∧ s.init = panel.init ∧
            d.draw_bitmap = panel.draw_bitmap ∧ d.swap_xy = panel.swap_xy ∧
            d.set_gap = panel.set_gap) := by
  refine ⟨?_, ?_⟩
  · intro hret
    obtain ⟨ptr, panel, ha, hg, hc, hb, hres⟩ := nodsiconf_create_ok_inv env fns io_handle cfg
      vendor_config dpi_config dsi_bus slot tr hv hdpi hbus hret
    rw [nodsiconf_create_ok env fns io_handle cfg vendor_config dpi_config dsi_bus ptr slot tr panel
      hv hdpi hbus ha hg hc hb hres]
    exact ⟨ptr, panel, _, ha, hres, rfl, _, _, rfl, rfl, rfl, rfl, rfl, rfl, rfl⟩
  · intro hret
    obtain ⟨ptr, panel, ha, hg, hc, hb, hres⟩ := simple_create_ok_inv env fns io_handle cfg
      vendor_config dpi_config dsi_bus slot tr hv hdpi hbus hret
    rw [simple_create_ok env fns io_handle cfg vendor_config dpi_config dsi_bus ptr slot tr panel
      hv hdpi hbus ha hg hc hb hres]
    exact ⟨ptr, panel, _, ha, hres, rfl, _, _, rfl, rfl, rfl, rfl, rfl, rfl, rfl⟩

/-- C19, witness: the sample configuration with services that all succeed. -/
theorem create_installs_decorator_witness :
    (esp_lcd_new_panel_nodsiconf env_ok sample_fns (some 1) (some sample_dev_config)
        (some none) []).ret_panel = some sample_decorated_panel ∧
      (esp_lcd_new_panel_nodsiconf env_ok sample_fns (some 1) (some sample_dev_config)
        (some none) []).state = some sample_nodsiconf ∧
      ∃ ptr panel before,
        env_ok.calloc [] = some ptr ∧
        env_ok.esp_lcd_new_panel_dpi before 0x2000 0x3000 none = DpiResult.created panel ∧
        (esp_lcd_new_panel_nodsiconf env_ok sample_fns (some 1) (some sample_dev_config)
          (some none) []).ret_panel = some
            { panel with
              del := sample_fns.del, init := sample_fns.init, reset := sample_fns.reset,
              mirror := sample_fns.mirror, invert_color := sample_fns.invert_color,
              disp_on_off := sample_fns.disp_on_off, disp_sleep := sample_fns.disp_sleep,
              user_data := some ptr } ∧
        ∃ d s,
          (esp_lcd_new_panel_nodsiconf env_ok sample_fns (some 1) (some sample_dev_config)
            (some none) []).ret_panel = some d ∧
          (esp_lcd_new_panel_nodsiconf env_ok sample_fns (some 1) (some sample_dev_config)
            (some none) []).state = some s ∧
          s.del = panel.del ∧ s.init = panel.init ∧
          d.draw_bitmap = panel.draw_bitmap ∧ d.swap_xy = panel.swap_xy ∧
          d.set_gap = panel.set_gap :=
  ⟨by decide, by decide,
    (create_installs_decorator env_ok sample_fns 1 sample_dev_config
      { init_cmds := some sample_init_cmds, init_cmds_size := 3,
        mipi_config := { lane_num := 2, dsi_bus := some 0x2000, dpi_config := some 0x3000 } }
      0x3000 0x2000 none [] rfl rfl rfl).1 (by decide)⟩

end EspPanel
